import Mathlib

set_option autoImplicit false

/-!
Verification development for the "Name That Sub" daily guessing game server
(`src/server/routes/game.ts`, which ships two route variants: the richer one
with a `completed` flag and a client-supplied date key, and a second variant
whose subreddit selection keeps `qualifying` / `unknownButSafe` buckets; plus
`src/shared/api.ts`).  All definitions below are shallow embeddings of these
sources: JavaScript 32-bit integer arithmetic becomes `Nat` with explicit
`% 2^32`, the Redis key-value store becomes an explicit `String → Option RVal`
state threaded through the handlers, and thrown errors become `Except`.
-/

/-- 2^32, the modulus of JavaScript's 32-bit bitwise arithmetic. -/
def U32 : Nat := 4294967296

/-- 2^31, the boundary between non-negative and negative int32 values. -/
def I32 : Nat := 2147483648

/-- FNV-1a inner loop of `seedFromString`: `h ^= charCode; h = Math.imul(h, 16777619)`,
working on the unsigned 32-bit representative. -/
def seedChars : List Char → Nat → Nat
  | [], h => h
  | c :: t, h => seedChars t (((h ^^^ c.toNat) * 16777619) % U32)

/-- `seedFromString` from the source: FNV-1a offset basis 2166136261, prime 16777619,
returning the `>>> 0` (unsigned) value. -/
def seedFromString (s : String) : Nat := seedChars s.data 2166136261

/-- JavaScript `x >> 17` (sign-propagating shift) on the unsigned 32-bit representative. -/
def sar17 (x : Nat) : Nat :=
  if x < I32 then x / 131072 else x / 131072 + (U32 - 32768)

/-- One xorshift32 step, `x ^= x << 13; x ^= x >> 17; x ^= x << 5`, as in `pickIndex`
and `shuffleDeterministic`, on the unsigned 32-bit representative. -/
def xs32 (x : Nat) : Nat :=
  let a := x ^^^ ((x * 8192) % U32)
  let b := a ^^^ sar17 a
  b ^^^ ((b * 32) % U32)

/-- JavaScript `Math.abs` applied to an int32 given by its unsigned 32-bit representative. -/
def jsAbs (x : Nat) : Nat := if x < I32 then x else U32 - x

/-- `pickIndex(len, seed)` from the source: xorshift32 on `seed || 123456789`,
folded into `[0, len)` by `Math.abs(x) % len`. -/
def pickIndex (len : Nat) (seed : Nat) : Nat :=
  jsAbs (xs32 (if seed = 0 then 123456789 else seed)) % len

/-- The evolving-state Fisher–Yates loop of `shuffleDeterministic` (second route
variant): the xorshift state persists across iterations, `j = Math.abs(x) % (i+1)`,
and positions `i` and `j` are swapped.  The counter argument is the current `i`. -/
def shuffleGo {α : Type} [Inhabited α] : Array α → Nat → Nat → Array α
  | a, _, 0 => a
  | a, x, Nat.succ k =>
    let i := Nat.succ k
    let x1 := xs32 x
    let j := jsAbs x1 % (i + 1)
    let vi := a.getD i default
    let vj := a.getD j default
    shuffleGo ((a.setD i vj).setD j vi) x1 k

/-- `shuffleDeterministic(arr, seed)` from the source (second route variant). -/
def shuffleDeterministic {α : Type} [Inhabited α] (l : List α) (seed : Nat) : List α :=
  (shuffleGo l.toArray (if seed = 0 then 123456789 else seed) (l.length - 1)).toList

/-- ASCII lower-casing of a string, modelling `String.prototype.toLowerCase`
on the ASCII names this code handles. -/
def lowerStr (s : String) : String := ⟨s.data.map Char.toLower⟩

/-- Whitespace as trimmed by `String.prototype.trim` (ASCII cases). -/
def isWs (c : Char) : Bool := c = ' ' ∨ c = '\t' ∨ c = '\n' ∨ c = '\r'

/-- `String.prototype.trim`: drop leading and trailing whitespace. -/
def trimStr (s : String) : String :=
  ⟨((s.data.dropWhile isWs).reverse.dropWhile isWs).reverse⟩

/-- List-level prefix test used to model `String.prototype.includes`. -/
def listIsPre : List Char → List Char → Bool
  | [], _ => true
  | _ :: _, [] => false
  | c :: ct, d :: dt => c = d && listIsPre ct dt

/-- `haystack.includes(needle)` for strings. -/
def strIncludes (hay needle : String) : Bool :=
  go needle.data hay.data
where
  go (n : List Char) : List Char → Bool
    | [] => listIsPre n []
    | c :: t => listIsPre n (c :: t) || go n t

/-- `normalizeGuess` from the source: trim, strip one optional leading `/r/` or `r/`
(case-insensitive, anchored), then keep only `[A-Za-z0-9_]` characters. -/
def normalizeGuess (input : String) : String :=
  let t := (trimStr input).data
  let t2 :=
    match t with
    | '/' :: c :: '/' :: rest => if c = 'r' ∨ c = 'R' then rest else t
    | c :: '/' :: rest => if c = 'r' ∨ c = 'R' then rest else t
    | _ => t
  ⟨t2.filter (fun c => c.isAlphanum || c = '_')⟩

/-- The three difficulty modes (`GameMode` in `src/shared/api.ts`). -/
inductive GameMode : Type
  | easy
  | medium
  | hard
deriving DecidableEq

/-- String form of a mode, as interpolated into Redis keys and seed strings. -/
def modeStr : GameMode → String
  | .easy => "easy"
  | .medium => "medium"
  | .hard => "hard"

/-- `normalizeMode(raw)`: lower-case the (possibly missing) raw string and fall back
to `"medium"` on anything other than the three mode names. -/
def normalizeMode (raw : Option String) : GameMode :=
  let s := lowerStr (raw.getD "")
  if s = "easy" then .easy
  else if s = "medium" then .medium
  else if s = "hard" then .hard
  else .medium

/-- `minSubsForMode` from the source: 1,000,000 for easy, 10,000 for medium, 0 for hard. -/
def minSubsForMode : GameMode → Nat
  | .easy => 1000000
  | .medium => 10000
  | .hard => 0

/-- A UTC calendar date, the server's view of `Date.now()` at day granularity
(only calendar days are ever observed by this code). -/
structure GDate : Type where
  y : Nat
  m : Nat
  d : Nat
deriving DecidableEq

/-- Gregorian leap-year rule, as implemented by JavaScript `Date` UTC arithmetic. -/
def isLeap (y : Nat) : Bool := y % 4 = 0 && (y % 100 ≠ 0 || y % 400 = 0)

/-- Days in a month under the Gregorian calendar. -/
def daysInMonth (y m : Nat) : Nat :=
  if m = 2 then (if isLeap y then 29 else 28)
  else if m = 4 ∨ m = 6 ∨ m = 9 ∨ m = 11 then 30
  else 31

/-- The calendar day after `t`: models `new Date(Date.now() + 86400000)` at day
granularity (JavaScript time has no leap seconds, so this is exact). -/
def nextDay (t : GDate) : GDate :=
  if t.d < daysInMonth t.y t.m then ⟨t.y, t.m, t.d + 1⟩
  else if t.m < 12 then ⟨t.y, t.m + 1, 1⟩
  else ⟨t.y + 1, 1, 1⟩

/-- The calendar day before `t`: models `new Date(Date.now() - 86400000)` at day
granularity. -/
def prevDay (t : GDate) : GDate :=
  if 1 < t.d then ⟨t.y, t.m, t.d - 1⟩
  else if 1 < t.m then ⟨t.y, t.m - 1, daysInMonth t.y (t.m - 1)⟩
  else ⟨t.y - 1, 12, 31⟩

/-- `String(n).padStart(2, "0")`. -/
def pad2 (n : Nat) : String := if n < 10 then "0" ++ toString n else toString n

/-- `utcDateKey`: the `YYYY-MM-DD` key of a UTC date. -/
def utcDateKey (t : GDate) : String :=
  toString t.y ++ ("-" ++ (pad2 t.m ++ ("-" ++ pad2 t.d)))

/-- ASCII digit test, for the `^\d{4}-\d{2}-\d{2}$` date-key shape check. -/
def isDig (c : Char) : Bool := '0' ≤ c && c ≤ '9'

/-- The regular expression `^\d{4}-\d{2}-\d{2}$` of `normalizeClientDateKey`. -/
def isDateShape (s : String) : Bool :=
  match s.data with
  | [a, b, c, d, e, f, g, h, i, j] =>
    isDig a && isDig b && isDig c && isDig d && e = '-' &&
    isDig f && isDig g && h = '-' && isDig i && isDig j
  | _ => false

/-- `normalizeClientDateKey` followed by `resolveDateKey` from the richer route
variant: trim the client value, require the `YYYY-MM-DD` shape, and only accept
keys within ±1 day of the server's UTC today, else fall back to UTC today. -/
def resolveDateKey (raw : Option String) (now : GDate) : String :=
  let s := trimStr (raw.getD "")
  let dk := if isDateShape s then s else utcDateKey now
  if dk = utcDateKey (prevDay now) ∨ dk = utcDateKey now ∨ dk = utcDateKey (nextDay now)
  then dk else utcDateKey now

/-- Community metadata as returned by the content source; each field is `none` when
absent or not a finite number / not a boolean (`getSubscriberCount` /
`isNsfwSub` probe these exact alternatives). -/
structure SubInfo : Type where
  subscribers : Option Int := none
  subscriberCount : Option Int := none
  subscriberCnt : Option Int := none
  subscribersCount : Option Int := none
  communitySize : Option Int := none
  nsfw : Option Bool := none
  isNsfw : Option Bool := none
  over18 : Option Bool := none
  isOver18 : Option Bool := none
  over18Snake : Option Bool := none
deriving DecidableEq

/-- `getSubscriberCount`: the first present finite numeric field among
`subscribers`, `subscriberCount`, `subscriber_count`, `subscribersCount`,
`communitySize`; a wholly missing value becomes `0`. -/
def getSubscriberCount (info : SubInfo) : Int :=
  ((((info.subscribers <|> info.subscriberCount) <|> info.subscriberCnt) <|>
      info.subscribersCount) <|> info.communitySize).getD 0

/-- `isNsfwSub`: true when any of the five adult-content fields is literally `true`. -/
def isNsfwSub (info : SubInfo) : Bool :=
  info.nsfw = some true || info.isNsfw = some true || info.over18 = some true ||
  info.isOver18 = some true || info.over18Snake = some true

/-- A post as returned by the content source; optional fields model
absent/undefined properties. -/
structure Post : Type where
  id : String := ""
  title : Option String := none
  selftext : Option String := none
  body : Option String := none
  subredditName : Option String := none
  subredditObjName : Option String := none
  subredditField : Option String := none
deriving DecidableEq, Inhabited

/-- `getPostSubredditName`: `post?.subredditName ?? post?.subreddit?.name ?? post?.subreddit`. -/
def getPostSubredditName (p : Post) : Option String :=
  (p.subredditName <|> p.subredditObjName) <|> p.subredditField

/-- A comment as returned by the content source (`body` may be absent). -/
structure RComment : Type where
  id : String := ""
  body : Option String := none
deriving DecidableEq

/-- A frozen snapshot of the content source: the global feed listing, community
metadata lookups (`none` models a thrown lookup), per-community post listings and
per-post comment listings (each already capped by the request's `limit`). -/
structure Snapshot : Type where
  allPosts : List Post
  subInfo : String → Option SubInfo
  postsOf : String → List Post
  commentsOf : String → List RComment

/-- The candidate subreddit names extracted from the global feed:
`posts.map(getPostSubredditName).filter(s => !!s)` (empty strings are falsy). -/
def feedSubNames (posts : List Post) : List String :=
  posts.filterMap (fun p =>
    match getPostSubredditName p with
    | some s => if s = "" then none else some s
    | none => none)

/-- The scan loop of the first (richer-file) `pickSubredditForMode`: for each `i`,
draw `candidates[pickIndex(len, seed(baseSeed + ":" + i))]`, skip already-tried
names, skip failed metadata lookups and NSFW communities, and return the first
name whose subscriber count is `0` (unknown) or at least `minSubs`.
`fuel` is the number of loop iterations left. -/
def pickLoopLenient (w : Snapshot) (cands : List String) (minSubs : Nat)
    (baseSeed : Nat) : Nat → Nat → List String → Option String
  | _, 0, _ => none
  | i, Nat.succ fuel, tried =>
    let idx := pickIndex cands.length (seedFromString (toString baseSeed ++ (":" ++ toString i)))
    let sub := cands.getD idx ""
    if sub ∈ tried then pickLoopLenient w cands minSubs baseSeed (i + 1) fuel tried
    else
      match w.subInfo sub with
      | none => pickLoopLenient w cands minSubs baseSeed (i + 1) fuel (sub :: tried)
      | some info =>
        if isNsfwSub info then pickLoopLenient w cands minSubs baseSeed (i + 1) fuel (sub :: tried)
        else
          let subs := getSubscriberCount info
          if subs = 0 ∨ subs ≥ (minSubs : Int) then some sub
          else pickLoopLenient w cands minSubs baseSeed (i + 1) fuel (sub :: tried)

/-- `pickSubredditForMode` from the richer route variant (the first file): scan up to
`min(45, candidates.length)` seeded draws, qualifying a community whose subscriber
count is unknown (`0`) or at least the mode threshold; fall back to a single seeded
draw over all candidates. -/
def pickSubredditForMode (w : Snapshot) (dateKey : String) (mode : GameMode) : String :=
  let minSubs := minSubsForMode mode
  let cands := feedSubNames w.allPosts
  if cands = [] then "all"
  else
    let baseSeed := seedFromString (dateKey ++ (":" ++ (modeStr mode ++ ":subpick")))
    match pickLoopLenient w cands minSubs baseSeed 0 (min 45 cands.length) [] with
    | some sub => sub
    | none => cands.getD (pickIndex cands.length baseSeed) ""

/-- First-occurrence deduplication, as `Array.from(new Set(rawSubs))` (JavaScript
`Set` preserves insertion order). -/
def uniqFirst : List String → List String :=
  go []
where
  go (seen : List String) : List String → List String
    | [] => []
    | a :: t => if a ∈ seen then go seen t else a :: go (a :: seen) t

/-- Stable insertion of a `{sub, subs}` pair into a descending-by-count list;
ties keep their existing order, matching `sort((a, b) => b.subs - a.subs)`
(ECMAScript stable sort). -/
def insDesc (x : String × Int) : List (String × Int) → List (String × Int)
  | [] => [x]
  | y :: t => if y.2 ≥ x.2 then y :: insDesc x t else x :: y :: t

/-- Stable descending sort by subscriber count (same result as the source's
stable `Array.prototype.sort` under the `b.subs - a.subs` comparator). -/
def sortDesc : List (String × Int) → List (String × Int)
  | [] => []
  | x :: t => insDesc x (sortDesc t)

/-- The easy/medium scan loop of the second route variant's `pickSubredditForMode`:
walk the (already length-capped) scan list, skip failed lookups and NSFW, push
known positive counts that meet the threshold into `qualifying` and non-positive
(unknown) counts into `unknownButSafe`, and break once `qualifying` reaches 12. -/
def emScan (w : Snapshot) (minSubs : Nat) :
    List String → List (String × Int) → List String → List (String × Int) × List String
  | [], q, u => (q, u)
  | s :: rest, q, u =>
    match w.subInfo s with
    | none => emScan w minSubs rest q u
    | some info =>
      if isNsfwSub info then emScan w minSubs rest q u
      else
        let subs := getSubscriberCount info
        if 0 < subs then
          if subs ≥ (minSubs : Int) then
            let q1 := q ++ [(s, subs)]
            if q1.length ≥ 12 then (q1, u) else emScan w minSubs rest q1 u
          else
            if q.length ≥ 12 then (q, u) else emScan w minSubs rest q u
        else
          let u1 := u ++ [s]
          if q.length ≥ 12 then (q, u1) else emScan w minSubs rest q u1

/-- The deterministically reordered unique candidate list of the second variant:
dedupe the feed names and Fisher–Yates-shuffle them with `seed(dateKey:mode:scan)`. -/
def subsToScan (w : Snapshot) (dateKey : String) (mode : GameMode) : List String :=
  shuffleDeterministic (uniqFirst (feedSubNames w.allPosts))
    (seedFromString (dateKey ++ (":" ++ (modeStr mode ++ ":scan"))))

/-- The `(qualifying, unknownButSafe)` buckets computed by the second variant's
easy/medium scan over the first `min(60, length)` entries of the scan order. -/
def emBuckets (w : Snapshot) (dateKey : String) (mode : GameMode) :
    List (String × Int) × List String :=
  emScan w (minSubsForMode mode) ((subsToScan w dateKey mode).take 60) [] []

/-- The hard-mode loop of the second variant: first non-NSFW community with a
successful metadata lookup among the first `min(40, length)` scan entries. -/
def hardScan (w : Snapshot) : List String → Option String
  | [] => none
  | s :: rest =>
    match w.subInfo s with
    | none => hardScan w rest
    | some info => if isNsfwSub info then hardScan w rest else some s

/-- `pickSubredditForMode` from the second route variant ("Fixes medium == hard by
NOT treating unknown subscriber counts as qualifying"): hard takes the first safe
candidate; easy/medium draw from the `qualifying` bucket (easy after biasing to the
12 largest), else from `unknownButSafe`, else from the full scan list. -/
def pickSubredditForModeStrict (w : Snapshot) (dateKey : String) (mode : GameMode) : String :=
  let scan := subsToScan w dateKey mode
  if scan = [] then "all"
  else
    let scanSeed := seedFromString (dateKey ++ (":" ++ (modeStr mode ++ ":scan")))
    if mode = .hard then
      match hardScan w (scan.take 40) with
      | some sub => sub
      | none => scan.getD (pickIndex scan.length scanSeed) ""
    else
      let (qualifying, unknownButSafe) := emBuckets w dateKey mode
      if qualifying ≠ [] then
        let bucket := if mode = .easy then (sortDesc qualifying).take 12 else qualifying
        let pickSeed := seedFromString (dateKey ++ (":" ++ (modeStr mode ++ ":pickQualified")))
        (bucket.getD (pickIndex bucket.length pickSeed) ("", 0)).1
      else if unknownButSafe ≠ [] then
        let pickSeed := seedFromString (dateKey ++ (":" ++ (modeStr mode ++ ":pickUnknown")))
        unknownButSafe.getD (pickIndex unknownButSafe.length pickSeed) ""
      else scan.getD (pickIndex scan.length scanSeed) ""

/-- `DailyPuzzle` from `src/shared/api.ts`. -/
structure DailyPuzzle : Type where
  dateKey : String
  mode : GameMode
  subreddit : String
  postId : String
  postTitle : String
  postBody : String
  commentId : String
  commentBody : String
deriving DecidableEq

/-- The strict comment filter of `buildDailyPuzzle`, applied to a trimmed body:
non-empty, not `[deleted]`/`[removed]`, at least 25 characters, no mention of
`r/<community>`, no "this sub"/"this subreddit", no bot/automoderator signature. -/
def strictOk (subreddit : String) (body : String) : Bool :=
  if body = "" then false
  else if body = "[deleted]" ∨ body = "[removed]" then false
  else if body.length < 25 then false
  else
    let lower := lowerStr body
    if strIncludes lower ("r/" ++ lowerStr subreddit) then false
    else if strIncludes lower "this sub" || strIncludes lower "this subreddit" then false
    else if strIncludes lower "i am a bot" || strIncludes lower "automod" then false
    else true

/-- The loose fallback comment filter: only excludes empty, `[deleted]` and
`[removed]` trimmed bodies. -/
def looseOk (body : String) : Bool :=
  body ≠ "" && body ≠ "[deleted]" && body ≠ "[removed]"

/-- The community picked by the Puzzle Builder (richer variant, which delegates
to its own lenient `pickSubredditForMode`). -/
def chosenSubreddit (w : Snapshot) (dateKey : String) (mode : GameMode) : String :=
  pickSubredditForMode w dateKey mode

/-- The post listing fetched for the chosen community. -/
def chosenPosts (w : Snapshot) (dateKey : String) (mode : GameMode) : List Post :=
  w.postsOf (chosenSubreddit w dateKey mode)

/-- The deterministically picked post:
`posts[pickIndex(posts.length, seed(dateKey:mode:subreddit:post))]`. -/
def chosenPost (w : Snapshot) (dateKey : String) (mode : GameMode) : Post :=
  let posts := chosenPosts w dateKey mode
  posts.getD
    (pickIndex posts.length
      (seedFromString
        (dateKey ++ (":" ++ (modeStr mode ++ (":" ++ (chosenSubreddit w dateKey mode ++ ":post")))))))
    default

/-- Comments of the chosen post, mapped to `(id, trimmedBody)` pairs as in
`comments.map(c => ({id: c.id, body: (c.body ?? "").toString().trim()}))`. -/
def mappedComments (w : Snapshot) (dateKey : String) (mode : GameMode) : List (String × String) :=
  (w.commentsOf (chosenPost w dateKey mode).id).map
    (fun c => (c.id, trimStr (c.body.getD "")))

/-- The `usable` strict-filtered comment list. -/
def usableComments (w : Snapshot) (dateKey : String) (mode : GameMode) : List (String × String) :=
  (mappedComments w dateKey mode).filter
    (fun c => strictOk (chosenSubreddit w dateKey mode) c.2)

/-- The loose-filtered fallback comment list. -/
def looseComments (w : Snapshot) (dateKey : String) (mode : GameMode) : List (String × String) :=
  (mappedComments w dateKey mode).filter (fun c => looseOk c.2)

/-- The selection pool: the first 60 strict-filtered comments when any exist,
otherwise the first 60 loose-filtered comments. -/
def commentPool (w : Snapshot) (dateKey : String) (mode : GameMode) : List (String × String) :=
  if usableComments w dateKey mode ≠ [] then (usableComments w dateKey mode).take 60
  else (looseComments w dateKey mode).take 60

/-- The cache-miss body of `buildDailyPuzzle` (richer variant): pick a community,
a post and a comment, failing hard when the chosen community has no posts or the
comment pool is empty; no internal retry. -/
def buildFresh (w : Snapshot) (dateKey : String) (mode : GameMode) : Except String DailyPuzzle :=
  let subreddit := chosenSubreddit w dateKey mode
  let posts := chosenPosts w dateKey mode
  if posts = [] then .error ("No posts found for r/" ++ subreddit)
  else
    let post := chosenPost w dateKey mode
    let pool := commentPool w dateKey mode
    if pool = [] then .error ("No usable comments for post " ++ post.id)
    else
      let comment :=
        pool.getD
          (pickIndex pool.length
            (seedFromString
              (dateKey ++ (":" ++ (modeStr mode ++ (":" ++ (subreddit ++ ":comment")))))))
          ("", "")
      .ok
        { dateKey := dateKey
          mode := mode
          subreddit := subreddit
          postId := post.id
          postTitle := post.title.getD ""
          postBody := (post.selftext <|> post.body).getD ""
          commentId := comment.1
          commentBody := comment.2 }

/-- A value stored in Redis.  Redis stores strings; `.s` is a literal string,
`.num n` models the decimal string `String(n)` written for scores and streaks,
and `.puzzle p` models `JSON.stringify(p)` (with `JSON.parse` as its exact
inverse on these records of strings). -/
inductive RVal : Type
  | s (v : String)
  | num (n : Nat)
  | puzzle (p : DailyPuzzle)
deriving DecidableEq

/-- The Redis store: every key is absent (`none`) or holds one value. -/
abbrev Store : Type := String → Option RVal

/-- `redis.set key value` (the 48-hour `expire` calls are beyond the horizon of
every property here and are modelled as no-ops). -/
def setKey (st : Store) (k : String) (v : RVal) : Store :=
  fun k2 => if k2 = k then some v else st k2

/-- `(await redis.get k) === "1"`, the flag read of `readCommitted`,
`readCompleted` and the `playedKey` check. -/
def isOne (v : Option RVal) : Bool :=
  match v with
  | some (.s t) => t = "1"
  | some (.num n) => n = 1
  | _ => false

/-- `Number((await redis.get k) ?? 0)` on the numerals this system writes. -/
def numOf (v : Option RVal) : Nat :=
  match v with
  | some (.num n) => n
  | some (.s t) => t.toNat?.getD 0
  | _ => 0

/-- `(await redis.get k) ?? ""` rendered as a string (used for `lastDate`). -/
def strOr (v : Option RVal) (dflt : String) : String :=
  match v with
  | some (.s t) => t
  | some (.num n) => toString n
  | some (.puzzle _) => dflt
  | none => dflt

/-- `(await redis.get k) ?? undefined` (used for `lastPlayedDateKey`). -/
def strOpt (v : Option RVal) : Option String :=
  match v with
  | some (.s t) => some t
  | some (.num n) => some (toString n)
  | some (.puzzle _) => some ""
  | none => none

/-- Redis key `nts:user:<id>:<mode>:score`. -/
def kScore (u : String) (m : GameMode) : String :=
  "nts:user:" ++ (u ++ (":" ++ (modeStr m ++ ":score")))

/-- Redis key `nts:user:<id>:<mode>:streak`. -/
def kStreak (u : String) (m : GameMode) : String :=
  "nts:user:" ++ (u ++ (":" ++ (modeStr m ++ ":streak")))

/-- Redis key `nts:user:<id>:<mode>:lastDate`. -/
def kLastDate (u : String) (m : GameMode) : String :=
  "nts:user:" ++ (u ++ (":" ++ (modeStr m ++ ":lastDate")))

/-- Redis key `nts:user:<id>:<mode>:played:<dateKey>`. -/
def kPlayed (u : String) (m : GameMode) (dk : String) : String :=
  "nts:user:" ++ (u ++ (":" ++ (modeStr m ++ (":played:" ++ dk))))

/-- Redis key `nts:user:<id>:<mode>:commit:<dateKey>`. -/
def kCommit (u : String) (m : GameMode) (dk : String) : String :=
  "nts:user:" ++ (u ++ (":" ++ (modeStr m ++ (":commit:" ++ dk))))

/-- Redis key `nts:user:<id>:<mode>:completed:<dateKey>`. -/
def kCompleted (u : String) (m : GameMode) (dk : String) : String :=
  "nts:user:" ++ (u ++ (":" ++ (modeStr m ++ (":completed:" ++ dk))))

/-- Redis key `nts:puzzle:<dateKey>:<mode>`, the puzzle cache entry. -/
def cacheKey (dk : String) (m : GameMode) : String :=
  "nts:puzzle:" ++ (dk ++ (":" ++ modeStr m))

/-- `buildDailyPuzzle` (richer variant) with its cache wrapper: a cache hit is
deserialized and returned untouched; a miss runs `buildFresh` and stores the
result under the cache key.  A non-puzzle value at the cache key (never written
by this system) is a `JSON.parse` failure. -/
def buildDailyPuzzle (w : Snapshot) (dateKey : String) (mode : GameMode) (st : Store) :
    Except String DailyPuzzle × Store :=
  let ck := cacheKey dateKey mode
  match st ck with
  | some (.puzzle p) => (.ok p, st)
  | some (.s _) => (.error "cache parse failure", st)
  | some (.num _) => (.error "cache parse failure", st)
  | none =>
    match buildFresh w dateKey mode with
    | .error e => (.error e, st)
    | .ok p => (.ok p, setKey st ck (.puzzle p))

/-- The body of a `POST /guess` request; `none` fields model absent/unparseable
body members (`c.req.json().catch(() => ({}))`). -/
structure GuessReq : Type where
  subredditGuess : Option String := none
  stageUsed : Option Nat := none
  mode : Option String := none
  dateKey : Option String := none
deriving DecidableEq

/-- `GuessResponse` from `src/shared/api.ts` (richer variant, with `completedToday`). -/
structure GuessResp : Type where
  correct : Bool
  stageUsed : Nat
  pointsAwarded : Nat
  answer : String
  totalScore : Nat
  streak : Nat
  modeLocked : GameMode
  modeIsLocked : Bool
  completedToday : Bool
deriving DecidableEq

/-- The `POST /guess` handler of the richer route variant.  `now` is the server's
UTC day, `userId` the current user's id (or `"anon"`).  Returns the HTTP outcome
(`.error` when `buildDailyPuzzle` throws) together with the updated store. -/
def guessHandler (w : Snapshot) (now : GDate) (userId : String) (st : Store)
    (req : GuessReq) : Except String GuessResp × Store :=
  let stage := req.stageUsed.getD 3
  let mode := normalizeMode req.mode
  let dk := resolveDateKey req.dateKey now
  -- lock after first guess
  let st1 :=
    if isOne (st (kCommit userId mode dk)) then st
    else setKey st (kCommit userId mode dk) (.s "1")
  match buildDailyPuzzle w dk mode st1 with
  | (.error e, st2) => (.error e, st2)
  | (.ok puzzle, st2) =>
    let guess := normalizeGuess (req.subredditGuess.getD "")
    let answer := puzzle.subreddit
    let correct := decide (lowerStr guess = lowerStr answer)
    let alreadyCompleted := isOne (st2 (kCompleted userId mode dk))
    -- final loss ends the mode too
    let isFinalLoss := !correct && decide (stage = 3)
    let finishesNow := correct || isFinalLoss
    -- award only once/day/mode, only on win
    let alreadyAwarded := isOne (st2 (kPlayed userId mode dk))
    let award := !alreadyCompleted && (correct && !alreadyAwarded)
    let pts := if stage = 1 then 100 else if stage = 2 then 60 else 30
    let pointsAwarded := if award then pts else 0
    let st6 :=
      if award then
        let st3 := setKey st2 (kPlayed userId mode dk) (.s "1")
        let prevScore := numOf (st3 (kScore userId mode))
        let st4 := setKey st3 (kScore userId mode) (.num (prevScore + pts))
        -- streak increments only on win, against the server-clock UTC yesterday
        let lastDate := strOr (st4 (kLastDate userId mode)) ""
        let prevStreak := numOf (st4 (kStreak userId mode))
        let yesterday := utcDateKey (prevDay now)
        let newStreak := if lastDate = yesterday then prevStreak + 1 else 1
        let st5 := setKey st4 (kStreak userId mode) (.num newStreak)
        setKey st5 (kLastDate userId mode) (.s dk)
      else st2
    let st7 :=
      if !alreadyCompleted && finishesNow then
        setKey st6 (kCompleted userId mode dk) (.s "1")
      else st6
    let totalScore := numOf (st7 (kScore userId mode))
    let streak := numOf (st7 (kStreak userId mode))
    let completedToday := isOne (st7 (kCompleted userId mode dk))
    (.ok
      { correct := correct
        stageUsed := stage
        pointsAwarded := if correct then pointsAwarded else 0
        answer := answer
        totalScore := totalScore
        streak := streak
        modeLocked := mode
        modeIsLocked := true
        completedToday := completedToday },
      st7)

/-- `GetStateResponse` from `src/shared/api.ts` (richer variant). -/
structure StateResp : Type where
  puzzle : DailyPuzzle
  modeLocked : GameMode
  modeIsLocked : Bool
  completedToday : Bool
  totalScore : Nat
  streak : Nat
  lastPlayedDateKey : Option String
deriving DecidableEq

/-- The `GET /state` handler of the richer route variant: reads the two flags,
fetches/builds the puzzle, and reads the per-mode totals; it performs no writes
of its own (only `buildDailyPuzzle` may populate the puzzle cache). -/
def stateHandler (w : Snapshot) (now : GDate) (userId : String) (st : Store)
    (modeQ dateQ : Option String) : Except String StateResp × Store :=
  let mode := normalizeMode modeQ
  let dk := resolveDateKey dateQ now
  let modeIsLocked := isOne (st (kCommit userId mode dk))
  let completedToday := isOne (st (kCompleted userId mode dk))
  match buildDailyPuzzle w dk mode st with
  | (.error e, st2) => (.error e, st2)
  | (.ok puzzle, st2) =>
    (.ok
      { puzzle := puzzle
        modeLocked := mode
        modeIsLocked := modeIsLocked
        completedToday := completedToday
        totalScore := numOf (st2 (kScore userId mode))
        streak := numOf (st2 (kStreak userId mode))
        lastPlayedDateKey := strOpt (st2 (kLastDate userId mode)) },
      st2)

/-- `GiveUpResponse` from `src/shared/api.ts`. -/
structure GiveUpResp : Type where
  modeLocked : GameMode
  modeIsLocked : Bool
  completedToday : Bool
  answer : String
deriving DecidableEq

/-- The `POST /giveup` handler of the richer route variant: ensure committed,
force completed, then return the puzzle's answer without touching any score. -/
def giveupHandler (w : Snapshot) (now : GDate) (userId : String) (st : Store)
    (modeB dateB : Option String) : Except String GiveUpResp × Store :=
  let mode := normalizeMode modeB
  let dk := resolveDateKey dateB now
  let st1 :=
    if isOne (st (kCommit userId mode dk)) then st
    else setKey st (kCommit userId mode dk) (.s "1")
  let st2 :=
    if isOne (st1 (kCompleted userId mode dk)) then st1
    else setKey st1 (kCompleted userId mode dk) (.s "1")
  match buildDailyPuzzle w dk mode st2 with
  | (.error e, st3) => (.error e, st3)
  | (.ok puzzle, st3) =>
    (.ok
      { modeLocked := mode
        modeIsLocked := true
        completedToday := true
        answer := puzzle.subreddit },
      st3)

/-- Underlying character lists determine strings. -/
theorem strExt {a b : String} (h : a.data = b.data) : a = b := by
  cases a; cases b; exact congrArg String.mk h

/-- Left cancellation for string concatenation. -/
theorem appCancel {p x y : String} (h : p ++ x = p ++ y) : x = y :=
  strExt (List.append_cancel_left (congrArg String.data h))

/-- Character lookup distributes over concatenation inside the left part. -/
theorem appGet (l s : String) (i : Nat) (h : i < l.data.length) :
    (l ++ s).data[i]? = l.data[i]? := by
  show (l.data ++ s.data)[i]? = l.data[i]?
  rw [List.getElem?_append, if_pos h]

/-- Two strings differing at some character position are distinct. -/
theorem neOfNth {a b : String} (i : Nat) (h : a.data[i]? ≠ b.data[i]?) : a ≠ b :=
  fun e => h (by rw [e])

/-- A plain string and a concatenation differing at a position inside the left
part are distinct. -/
theorem neLitApp (a l s : String) (i : Nat) (hi : i < l.data.length)
    (h : a.data[i]? ≠ l.data[i]?) : a ≠ l ++ s :=
  fun e => h (by rw [e, appGet l s i hi])

/-- Two concatenations differing at a position inside both left parts are distinct. -/
theorem neAppApp (l1 s1 l2 s2 : String) (i : Nat) (h1 : i < l1.data.length)
    (h2 : i < l2.data.length) (h : l1.data[i]? ≠ l2.data[i]?) : l1 ++ s1 ≠ l2 ++ s2 :=
  fun e => h (by rw [← appGet l1 s1 i h1, e, appGet l2 s2 i h2])

/-- Per-user keys with distinct tails are distinct. -/
theorem tailNe {u : String} {m : GameMode} {t1 t2 : String} (h : t1 ≠ t2) :
    "nts:user:" ++ (u ++ (":" ++ (modeStr m ++ t1))) ≠
      "nts:user:" ++ (u ++ (":" ++ (modeStr m ++ t2))) :=
  fun e => h (appCancel (appCancel (appCancel (appCancel e))))

@[simp] theorem kScore_ne_kStreak (u : String) (m : GameMode) : kScore u m ≠ kStreak u m :=
  tailNe (by decide)

@[simp] theorem kScore_ne_kLastDate (u : String) (m : GameMode) : kScore u m ≠ kLastDate u m :=
  tailNe (by decide)

@[simp] theorem kStreak_ne_kLastDate (u : String) (m : GameMode) : kStreak u m ≠ kLastDate u m :=
  tailNe (by decide)

@[simp] theorem kScore_ne_kPlayed (u : String) (m : GameMode) (dk : String) :
    kScore u m ≠ kPlayed u m dk :=
  tailNe (neLitApp ":score" ":played:" dk 1 (by decide) (by decide))

@[simp] theorem kScore_ne_kCommit (u : String) (m : GameMode) (dk : String) :
    kScore u m ≠ kCommit u m dk :=
  tailNe (neLitApp ":score" ":commit:" dk 1 (by decide) (by decide))

@[simp] theorem kScore_ne_kCompleted (u : String) (m : GameMode) (dk : String) :
    kScore u m ≠ kCompleted u m dk :=
  tailNe (neLitApp ":score" ":completed:" dk 1 (by decide) (by decide))

@[simp] theorem kStreak_ne_kPlayed (u : String) (m : GameMode) (dk : String) :
    kStreak u m ≠ kPlayed u m dk :=
  tailNe (neLitApp ":streak" ":played:" dk 1 (by decide) (by decide))

@[simp] theorem kStreak_ne_kCommit (u : String) (m : GameMode) (dk : String) :
    kStreak u m ≠ kCommit u m dk :=
  tailNe (neLitApp ":streak" ":commit:" dk 1 (by decide) (by decide))

@[simp] theorem kStreak_ne_kCompleted (u : String) (m : GameMode) (dk : String) :
    kStreak u m ≠ kCompleted u m dk :=
  tailNe (neLitApp ":streak" ":completed:" dk 1 (by decide) (by decide))

@[simp] theorem kLastDate_ne_kPlayed (u : String) (m : GameMode) (dk : String) :
    kLastDate u m ≠ kPlayed u m dk :=
  tailNe (neLitApp ":lastDate" ":played:" dk 1 (by decide) (by decide))

@[simp] theorem kLastDate_ne_kCommit (u : String) (m : GameMode) (dk : String) :
    kLastDate u m ≠ kCommit u m dk :=
  tailNe (neLitApp ":lastDate" ":commit:" dk 1 (by decide) (by decide))

@[simp] theorem kLastDate_ne_kCompleted (u : String) (m : GameMode) (dk : String) :
    kLastDate u m ≠ kCompleted u m dk :=
  tailNe (neLitApp ":lastDate" ":completed:" dk 1 (by decide) (by decide))

@[simp] theorem kPlayed_ne_kCommit (u : String) (m : GameMode) (dk dk2 : String) :
    kPlayed u m dk ≠ kCommit u m dk2 :=
  tailNe (neAppApp ":played:" dk ":commit:" dk2 1 (by decide) (by decide) (by decide))

@[simp] theorem kPlayed_ne_kCompleted (u : String) (m : GameMode) (dk dk2 : String) :
    kPlayed u m dk ≠ kCompleted u m dk2 :=
  tailNe (neAppApp ":played:" dk ":completed:" dk2 1 (by decide) (by decide) (by decide))

@[simp] theorem kCommit_ne_kCompleted (u : String) (m : GameMode) (dk dk2 : String) :
    kCommit u m dk ≠ kCompleted u m dk2 :=
  tailNe (neAppApp ":commit:" dk ":completed:" dk2 4 (by decide) (by decide) (by decide))

@[simp] theorem kScore_ne_cacheKey (u : String) (m : GameMode) (dk : String) (m2 : GameMode) :
    kScore u m ≠ cacheKey dk m2 :=
  neAppApp "nts:user:" _ "nts:puzzle:" _ 4 (by decide) (by decide) (by decide)

@[simp] theorem kStreak_ne_cacheKey (u : String) (m : GameMode) (dk : String) (m2 : GameMode) :
    kStreak u m ≠ cacheKey dk m2 :=
  neAppApp "nts:user:" _ "nts:puzzle:" _ 4 (by decide) (by decide) (by decide)

@[simp] theorem kLastDate_ne_cacheKey (u : String) (m : GameMode) (dk : String) (m2 : GameMode) :
    kLastDate u m ≠ cacheKey dk m2 :=
  neAppApp "nts:user:" _ "nts:puzzle:" _ 4 (by decide) (by decide) (by decide)

@[simp] theorem kPlayed_ne_cacheKey (u : String) (m : GameMode) (dk : String) (dk2 : String)
    (m2 : GameMode) : kPlayed u m dk ≠ cacheKey dk2 m2 :=
  neAppApp "nts:user:" _ "nts:puzzle:" _ 4 (by decide) (by decide) (by decide)

@[simp] theorem kCommit_ne_cacheKey (u : String) (m : GameMode) (dk : String) (dk2 : String)
    (m2 : GameMode) : kCommit u m dk ≠ cacheKey dk2 m2 :=
  neAppApp "nts:user:" _ "nts:puzzle:" _ 4 (by decide) (by decide) (by decide)

@[simp] theorem kCompleted_ne_cacheKey (u : String) (m : GameMode) (dk : String) (dk2 : String)
    (m2 : GameMode) : kCompleted u m dk ≠ cacheKey dk2 m2 :=
  neAppApp "nts:user:" _ "nts:puzzle:" _ 4 (by decide) (by decide) (by decide)

@[simp] theorem kStreak_ne_kScore (u : String) (m : GameMode) : kStreak u m ≠ kScore u m :=
  (kScore_ne_kStreak u m).symm

@[simp] theorem kLastDate_ne_kScore (u : String) (m : GameMode) : kLastDate u m ≠ kScore u m :=
  (kScore_ne_kLastDate u m).symm

@[simp] theorem kLastDate_ne_kStreak (u : String) (m : GameMode) : kLastDate u m ≠ kStreak u m :=
  (kStreak_ne_kLastDate u m).symm

@[simp] theorem kPlayed_ne_kScore (u : String) (m : GameMode) (dk : String) :
    kPlayed u m dk ≠ kScore u m :=
  (kScore_ne_kPlayed u m dk).symm

@[simp] theorem kCommit_ne_kScore (u : String) (m : GameMode) (dk : String) :
    kCommit u m dk ≠ kScore u m :=
  (kScore_ne_kCommit u m dk).symm

@[simp] theorem kCompleted_ne_kScore (u : String) (m : GameMode) (dk : String) :
    kCompleted u m dk ≠ kScore u m :=
  (kScore_ne_kCompleted u m dk).symm

@[simp] theorem kPlayed_ne_kStreak (u : String) (m : GameMode) (dk : String) :
    kPlayed u m dk ≠ kStreak u m :=
  (kStreak_ne_kPlayed u m dk).symm

@[simp] theorem kCommit_ne_kStreak (u : String) (m : GameMode) (dk : String) :
    kCommit u m dk ≠ kStreak u m :=
  (kStreak_ne_kCommit u m dk).symm

@[simp] theorem kCompleted_ne_kStreak (u : String) (m : GameMode) (dk : String) :
    kCompleted u m dk ≠ kStreak u m :=
  (kStreak_ne_kCompleted u m dk).symm

@[simp] theorem kPlayed_ne_kLastDate (u : String) (m : GameMode) (dk : String) :
    kPlayed u m dk ≠ kLastDate u m :=
  (kLastDate_ne_kPlayed u m dk).symm

@[simp] theorem kCommit_ne_kLastDate (u : String) (m : GameMode) (dk : String) :
    kCommit u m dk ≠ kLastDate u m :=
  (kLastDate_ne_kCommit u m dk).symm

@[simp] theorem kCompleted_ne_kLastDate (u : String) (m : GameMode) (dk : String) :
    kCompleted u m dk ≠ kLastDate u m :=
  (kLastDate_ne_kCompleted u m dk).symm

@[simp] theorem kCommit_ne_kPlayed (u : String) (m : GameMode) (dk dk2 : String) :
    kCommit u m dk ≠ kPlayed u m dk2 :=
  (kPlayed_ne_kCommit u m dk2 dk).symm

@[simp] theorem kCompleted_ne_kPlayed (u : String) (m : GameMode) (dk dk2 : String) :
    kCompleted u m dk ≠ kPlayed u m dk2 :=
  (kPlayed_ne_kCompleted u m dk2 dk).symm

@[simp] theorem kCompleted_ne_kCommit (u : String) (m : GameMode) (dk dk2 : String) :
    kCompleted u m dk ≠ kCommit u m dk2 :=
  (kCommit_ne_kCompleted u m dk2 dk).symm

@[simp] theorem cacheKey_ne_kScore (dk : String) (m2 : GameMode) (u : String) (m : GameMode) :
    cacheKey dk m2 ≠ kScore u m :=
  (kScore_ne_cacheKey u m dk m2).symm

@[simp] theorem cacheKey_ne_kStreak (dk : String) (m2 : GameMode) (u : String) (m : GameMode) :
    cacheKey dk m2 ≠ kStreak u m :=
  (kStreak_ne_cacheKey u m dk m2).symm

@[simp] theorem cacheKey_ne_kLastDate (dk : String) (m2 : GameMode) (u : String) (m : GameMode) :
    cacheKey dk m2 ≠ kLastDate u m :=
  (kLastDate_ne_cacheKey u m dk m2).symm

@[simp] theorem cacheKey_ne_kPlayed (dk2 : String) (m2 : GameMode) (u : String) (m : GameMode)
    (dk : String) : cacheKey dk2 m2 ≠ kPlayed u m dk :=
  (kPlayed_ne_cacheKey u m dk dk2 m2).symm

@[simp] theorem cacheKey_ne_kCommit (dk2 : String) (m2 : GameMode) (u : String) (m : GameMode)
    (dk : String) : cacheKey dk2 m2 ≠ kCommit u m dk :=
  (kCommit_ne_cacheKey u m dk dk2 m2).symm

@[simp] theorem cacheKey_ne_kCompleted (dk2 : String) (m2 : GameMode) (u : String) (m : GameMode)
    (dk : String) : cacheKey dk2 m2 ≠ kCompleted u m dk :=
  (kCompleted_ne_cacheKey u m dk dk2 m2).symm

@[simp] theorem setKey_apply (st : Store) (k : String) (v : RVal) (k2 : String) :
    setKey st k v k2 = if k2 = k then some v else st k2 := rfl

@[simp] theorem numOf_num (n : Nat) : numOf (some (.num n)) = n := rfl

@[simp] theorem isOne_s1 : isOne (some (.s "1")) = true := rfl

def gStage (req : GuessReq) : Nat := req.stageUsed.getD 3

def gCorrect (req : GuessReq) (p : DailyPuzzle) : Bool :=
  decide (lowerStr (normalizeGuess (req.subredditGuess.getD "")) = lowerStr p.subreddit)

def gPts (req : GuessReq) : Nat :=
  if gStage req = 1 then 100 else if gStage req = 2 then 60 else 30

def gFin (req : GuessReq) (p : DailyPuzzle) : Bool :=
  gCorrect req p || (!(gCorrect req p) && decide (gStage req = 3))

def gAward (st : Store) (u : String) (m : GameMode) (dk : String) (req : GuessReq)
    (p : DailyPuzzle) : Bool :=
  !(isOne (st (kCompleted u m dk))) && (gCorrect req p && !(isOne (st (kPlayed u m dk))))

def gNewStreak (st : Store) (u : String) (m : GameMode) (now : GDate) : Nat :=
  if strOr (st (kLastDate u m)) "" = utcDateKey (prevDay now) then
    numOf (st (kStreak u m)) + 1
  else 1

theorem guess_char_fst (w : Snapshot) (now : GDate) (u : String) (st : Store) (req : GuessReq)
    (p : DailyPuzzle) (m : GameMode) (dk : String)
    (hm : normalizeMode req.mode = m) (hdk : resolveDateKey req.dateKey now = dk)
    (hc : st (cacheKey dk m) = some (.puzzle p)) :
    (guessHandler w now u st req).1 =
      .ok { correct := gCorrect req p
            stageUsed := gStage req
            pointsAwarded := if gAward st u m dk req p then gPts req else 0
            answer := p.subreddit
            totalScore :=
              if gAward st u m dk req p then numOf (st (kScore u m)) + gPts req
              else numOf (st (kScore u m))
            streak :=
              if gAward st u m dk req p then gNewStreak st u m now
              else numOf (st (kStreak u m))
            modeLocked := m
            modeIsLocked := true
            completedToday := isOne (st (kCompleted u m dk)) || gFin req p } := by
  unfold guessHandler buildDailyPuzzle
  simp only [hm, hdk]
  by_cases hcm : isOne (st (kCommit u m dk)) <;>
  by_cases hC : isOne (st (kCompleted u m dk)) <;>
  by_cases hCor : lowerStr (normalizeGuess (req.subredditGuess.getD "")) = lowerStr p.subreddit <;>
  by_cases hA : isOne (st (kPlayed u m dk)) <;>
    simp [hcm, hC, hCor, hA, hc, setKey, gCorrect, gStage, gPts, gFin, gAward, gNewStreak,
      apply_ite (fun f : Store => f (kScore u m)),
      apply_ite (fun f : Store => f (kStreak u m)),
      apply_ite (fun f : Store => f (kCompleted u m dk)), apply_ite isOne, apply_ite numOf]

theorem guess_snd_score (w : Snapshot) (now : GDate) (u : String) (st : Store) (req : GuessReq)
    (p : DailyPuzzle) (m : GameMode) (dk : String)
    (hm : normalizeMode req.mode = m) (hdk : resolveDateKey req.dateKey now = dk)
    (hc : st (cacheKey dk m) = some (.puzzle p)) :
    (guessHandler w now u st req).2 (kScore u m) =
      if gAward st u m dk req p then some (.num (numOf (st (kScore u m)) + gPts req))
      else st (kScore u m) := by
  unfold guessHandler buildDailyPuzzle
  simp only [hm, hdk]
  by_cases hcm : isOne (st (kCommit u m dk)) <;>
  by_cases hC : isOne (st (kCompleted u m dk)) <;>
  by_cases hCor : lowerStr (normalizeGuess (req.subredditGuess.getD "")) = lowerStr p.subreddit <;>
  by_cases hA : isOne (st (kPlayed u m dk)) <;>
    simp [hcm, hC, hCor, hA, hc, setKey, gCorrect, gStage, gPts, gAward, gNewStreak,
      apply_ite (fun f : Store => f (kScore u m))]

theorem guess_snd_streak (w : Snapshot) (now : GDate) (u : String) (st : Store) (req : GuessReq)
    (p : DailyPuzzle) (m : GameMode) (dk : String)
    (hm : normalizeMode req.mode = m) (hdk : resolveDateKey req.dateKey now = dk)
    (hc : st (cacheKey dk m) = some (.puzzle p)) :
    (guessHandler w now u st req).2 (kStreak u m) =
      if gAward st u m dk req p then some (.num (gNewStreak st u m now))
      else st (kStreak u m) := by
  unfold guessHandler buildDailyPuzzle
  simp only [hm, hdk]
  by_cases hcm : isOne (st (kCommit u m dk)) <;>
  by_cases hC : isOne (st (kCompleted u m dk)) <;>
  by_cases hCor : lowerStr (normalizeGuess (req.subredditGuess.getD "")) = lowerStr p.subreddit <;>
  by_cases hA : isOne (st (kPlayed u m dk)) <;>
    simp [hcm, hC, hCor, hA, hc, setKey, gCorrect, gStage, gPts, gAward, gNewStreak,
      apply_ite (fun f : Store => f (kStreak u m))]

theorem guess_snd_lastDate (w : Snapshot) (now : GDate) (u : String) (st : Store) (req : GuessReq)
    (p : DailyPuzzle) (m : GameMode) (dk : String)
    (hm : normalizeMode req.mode = m) (hdk : resolveDateKey req.dateKey now = dk)
    (hc : st (cacheKey dk m) = some (.puzzle p)) :
    (guessHandler w now u st req).2 (kLastDate u m) =
      if gAward st u m dk req p then some (.s dk) else st (kLastDate u m) := by
  unfold guessHandler buildDailyPuzzle
  simp only [hm, hdk]
  by_cases hcm : isOne (st (kCommit u m dk)) <;>
  by_cases hC : isOne (st (kCompleted u m dk)) <;>
  by_cases hCor : lowerStr (normalizeGuess (req.subredditGuess.getD "")) = lowerStr p.subreddit <;>
  by_cases hA : isOne (st (kPlayed u m dk)) <;>
    simp [hcm, hC, hCor, hA, hc, setKey, gCorrect, gStage, gAward,
      apply_ite (fun f : Store => f (kLastDate u m))]

theorem guess_snd_played (w : Snapshot) (now : GDate) (u : String) (st : Store) (req : GuessReq)
    (p : DailyPuzzle) (m : GameMode) (dk : String)
    (hm : normalizeMode req.mode = m) (hdk : resolveDateKey req.dateKey now = dk)
    (hc : st (cacheKey dk m) = some (.puzzle p)) :
    (guessHandler w now u st req).2 (kPlayed u m dk) =
      if gAward st u m dk req p then some (.s "1") else st (kPlayed u m dk) := by
  unfold guessHandler buildDailyPuzzle
  simp only [hm, hdk]
  by_cases hcm : isOne (st (kCommit u m dk)) <;>
  by_cases hC : isOne (st (kCompleted u m dk)) <;>
  by_cases hCor : lowerStr (normalizeGuess (req.subredditGuess.getD "")) = lowerStr p.subreddit <;>
  by_cases hA : isOne (st (kPlayed u m dk)) <;>
    simp [hcm, hC, hCor, hA, hc, setKey, gCorrect, gStage, gAward,
      apply_ite (fun f : Store => f (kPlayed u m dk))]

theorem guess_snd_completed (w : Snapshot) (now : GDate) (u : String) (st : Store) (req : GuessReq)
    (p : DailyPuzzle) (m : GameMode) (dk : String)
    (hm : normalizeMode req.mode = m) (hdk : resolveDateKey req.dateKey now = dk)
    (hc : st (cacheKey dk m) = some (.puzzle p)) :
    (guessHandler w now u st req).2 (kCompleted u m dk) =
      if !(isOne (st (kCompleted u m dk))) && gFin req p then some (.s "1")
      else st (kCompleted u m dk) := by
  unfold guessHandler buildDailyPuzzle
  simp only [hm, hdk]
  by_cases hcm : isOne (st (kCommit u m dk)) <;>
  by_cases hC : isOne (st (kCompleted u m dk)) <;>
  by_cases hCor : lowerStr (normalizeGuess (req.subredditGuess.getD "")) = lowerStr p.subreddit <;>
  by_cases hA : isOne (st (kPlayed u m dk)) <;>
    simp [hcm, hC, hCor, hA, hc, setKey, gCorrect, gStage, gFin, gAward,
      apply_ite (fun f : Store => f (kCompleted u m dk))]

theorem guess_snd_commit (w : Snapshot) (now : GDate) (u : String) (st : Store) (req : GuessReq)
    (p : DailyPuzzle) (m : GameMode) (dk : String)
    (hm : normalizeMode req.mode = m) (hdk : resolveDateKey req.dateKey now = dk)
    (hc : st (cacheKey dk m) = some (.puzzle p)) :
    (guessHandler w now u st req).2 (kCommit u m dk) =
      if isOne (st (kCommit u m dk)) then st (kCommit u m dk) else some (.s "1") := by
  unfold guessHandler buildDailyPuzzle
  simp only [hm, hdk]
  by_cases hcm : isOne (st (kCommit u m dk)) <;>
  by_cases hC : isOne (st (kCompleted u m dk)) <;>
  by_cases hCor : lowerStr (normalizeGuess (req.subredditGuess.getD "")) = lowerStr p.subreddit <;>
  by_cases hA : isOne (st (kPlayed u m dk)) <;>
    simp [hcm, hC, hCor, hA, hc, setKey, gCorrect, gStage, gAward,
      apply_ite (fun f : Store => f (kCommit u m dk))]

theorem guess_snd_frame (w : Snapshot) (now : GDate) (u : String) (st : Store) (req : GuessReq)
    (p : DailyPuzzle) (m : GameMode) (dk : String)
    (hm : normalizeMode req.mode = m) (hdk : resolveDateKey req.dateKey now = dk)
    (hc : st (cacheKey dk m) = some (.puzzle p)) (k : String)
    (h1 : k ≠ kScore u m) (h2 : k ≠ kStreak u m) (h3 : k ≠ kLastDate u m)
    (h4 : k ≠ kPlayed u m dk) (h5 : k ≠ kCommit u m dk) (h6 : k ≠ kCompleted u m dk) :
    (guessHandler w now u st req).2 k = st k := by
  unfold guessHandler buildDailyPuzzle
  simp only [hm, hdk]
  by_cases hcm : isOne (st (kCommit u m dk)) <;>
  by_cases hC : isOne (st (kCompleted u m dk)) <;>
  by_cases hCor : lowerStr (normalizeGuess (req.subredditGuess.getD "")) = lowerStr p.subreddit <;>
  by_cases hA : isOne (st (kPlayed u m dk)) <;>
    simp [hcm, hC, hCor, hA, hc, setKey, gCorrect, gStage, gAward, h1, h2, h3, h4, h5, h6,
      apply_ite (fun f : Store => f k)]

theorem giveup_fst (w : Snapshot) (now : GDate) (u : String) (st : Store)
    (modeB dateB : Option String) (p : DailyPuzzle) (m : GameMode) (dk : String)
    (hm : normalizeMode modeB = m) (hdk : resolveDateKey dateB now = dk)
    (hc : st (cacheKey dk m) = some (.puzzle p)) :
    (giveupHandler w now u st modeB dateB).1 =
      .ok { modeLocked := m, modeIsLocked := true, completedToday := true,
            answer := p.subreddit } := by
  unfold giveupHandler buildDailyPuzzle
  simp only [hm, hdk]
  by_cases hcm : isOne (st (kCommit u m dk)) <;>
  by_cases hC : isOne (st (kCompleted u m dk)) <;>
    simp [hcm, hC, hc, setKey]

theorem giveup_snd_completed (w : Snapshot) (now : GDate) (u : String) (st : Store)
    (modeB dateB : Option String) (p : DailyPuzzle) (m : GameMode) (dk : String)
    (hm : normalizeMode modeB = m) (hdk : resolveDateKey dateB now = dk)
    (hc : st (cacheKey dk m) = some (.puzzle p)) :
    (giveupHandler w now u st modeB dateB).2 (kCompleted u m dk) =
      if isOne (st (kCompleted u m dk)) then st (kCompleted u m dk) else some (.s "1") := by
  unfold giveupHandler buildDailyPuzzle
  simp only [hm, hdk]
  by_cases hcm : isOne (st (kCommit u m dk)) <;>
  by_cases hC : isOne (st (kCompleted u m dk)) <;>
    simp [hcm, hC, hc, setKey]

theorem giveup_snd_frame (w : Snapshot) (now : GDate) (u : String) (st : Store)
    (modeB dateB : Option String) (p : DailyPuzzle) (m : GameMode) (dk : String)
    (hm : normalizeMode modeB = m) (hdk : resolveDateKey dateB now = dk)
    (hc : st (cacheKey dk m) = some (.puzzle p)) (k : String)
    (h5 : k ≠ kCommit u m dk) (h6 : k ≠ kCompleted u m dk) :
    (giveupHandler w now u st modeB dateB).2 k = st k := by
  unfold giveupHandler buildDailyPuzzle
  simp only [hm, hdk]
  by_cases hcm : isOne (st (kCommit u m dk)) <;>
  by_cases hC : isOne (st (kCompleted u m dk)) <;>
    simp [hcm, hC, hc, setKey, h5, h6]

theorem state_snd_frame (w : Snapshot) (now : GDate) (u : String) (st : Store)
    (modeQ dateQ : Option String) (k : String)
    (hk : k ≠ cacheKey (resolveDateKey dateQ now) (normalizeMode modeQ)) :
    (stateHandler w now u st modeQ dateQ).2 k = st k := by
  unfold stateHandler buildDailyPuzzle
  cases hck : st (cacheKey (resolveDateKey dateQ now) (normalizeMode modeQ)) with
  | none =>
    cases hb : buildFresh w (resolveDateKey dateQ now) (normalizeMode modeQ) <;>
      simp [hck, hb, setKey, hk]
  | some v => cases v <;> simp [hck, setKey, hk]

/-- Lower-casing preserves emptiness. -/
theorem lowerStr_empty_iff (s : String) : lowerStr s = "" ↔ s = "" := by
  constructor
  · intro h
    have h2 : s.data.map Char.toLower = ([] : List Char) := congrArg String.data h
    exact strExt (List.map_eq_nil_iff.mp h2)
  · intro h; rw [h]; rfl

/-- C6: for fixed `(dateKey, mode)` and a fixed snapshot, `buildDailyPuzzle` is
deterministic across repeated invocations (the second call hits the cache the
first call wrote and returns the identical record) and across process restarts
(a call against any store without a cache entry rebuilds the identical record). -/
theorem c6_build_deterministic (w : Snapshot) (dk : String) (m : GameMode) (st : Store)
    (h : st (cacheKey dk m) = none) (p : DailyPuzzle)
    (hfirst : (buildDailyPuzzle w dk m st).1 = .ok p) :
    (buildDailyPuzzle w dk m ((buildDailyPuzzle w dk m st).2)).1 = .ok p ∧
    ∀ st3 : Store, st3 (cacheKey dk m) = none → (buildDailyPuzzle w dk m st3).1 = .ok p := by
  simp only [buildDailyPuzzle, h] at hfirst
  cases hb : buildFresh w dk m with
  | error e => rw [hb] at hfirst; simp at hfirst
  | ok q =>
    rw [hb] at hfirst
    have hq : q = p := by simpa using hfirst
    subst hq
    constructor
    · simp only [buildDailyPuzzle, h, hb, setKey_apply, if_pos]
    · intro st3 h3
      simp only [buildDailyPuzzle, h3, hb]

/-- C9: the `GET /state` handler mutates none of the commit/completed/played flags
nor any per-mode score, streak or last-played-day record, for any user, mode and
date key (its only possible write is the puzzle-cache entry). -/
theorem c9_state_readonly (w : Snapshot) (now : GDate) (userId : String) (st : Store)
    (modeQ dateQ : Option String) (u2 : String) (m2 : GameMode) (d2 : String) :
    (stateHandler w now userId st modeQ dateQ).2 (kScore u2 m2) = st (kScore u2 m2) ∧
    (stateHandler w now userId st modeQ dateQ).2 (kStreak u2 m2) = st (kStreak u2 m2) ∧
    (stateHandler w now userId st modeQ dateQ).2 (kLastDate u2 m2) = st (kLastDate u2 m2) ∧
    (stateHandler w now userId st modeQ dateQ).2 (kPlayed u2 m2 d2) = st (kPlayed u2 m2 d2) ∧
    (stateHandler w now userId st modeQ dateQ).2 (kCommit u2 m2 d2) = st (kCommit u2 m2 d2) ∧
    (stateHandler w now userId st modeQ dateQ).2 (kCompleted u2 m2 d2) = st (kCompleted u2 m2 d2) :=
  ⟨state_snd_frame w now userId st modeQ dateQ _ (kScore_ne_cacheKey _ _ _ _),
   state_snd_frame w now userId st modeQ dateQ _ (kStreak_ne_cacheKey _ _ _ _),
   state_snd_frame w now userId st modeQ dateQ _ (kLastDate_ne_cacheKey _ _ _ _),
   state_snd_frame w now userId st modeQ dateQ _ (kPlayed_ne_cacheKey _ _ _ _ _),
   state_snd_frame w now userId st modeQ dateQ _ (kCommit_ne_cacheKey _ _ _ _ _),
   state_snd_frame w now userId st modeQ dateQ _ (kCompleted_ne_cacheKey _ _ _ _ _)⟩

/-- C10: a guess request with a missing or unparseable body is processed with the
defaults mode `"medium"`, `stageUsed 3` and empty guess text; it commits the mode
for (user, medium, server-today) and, since the empty normalized guess cannot match
the non-empty answer at stage 3, terminally completes it without awarding points. -/
theorem c10_malformed_body_defaults (w : Snapshot) (now : GDate) (u : String) (st : Store)
    (p : DailyPuzzle) (hc : st (cacheKey (utcDateKey now) .medium) = some (.puzzle p))
    (hans : p.subreddit ≠ "") :
    normalizeMode (GuessReq.mk none none none none).mode = .medium ∧
    resolveDateKey (GuessReq.mk none none none none).dateKey now = utcDateKey now ∧
    (GuessReq.mk none none none none).stageUsed.getD 3 = 3 ∧
    normalizeGuess ((GuessReq.mk none none none none).subredditGuess.getD "") = "" ∧
    (guessHandler w now u st (GuessReq.mk none none none none)).1 =
      .ok { correct := false, stageUsed := 3, pointsAwarded := 0, answer := p.subreddit,
            totalScore := numOf (st (kScore u .medium)),
            streak := numOf (st (kStreak u .medium)),
            modeLocked := .medium, modeIsLocked := true, completedToday := true } ∧
    isOne ((guessHandler w now u st (GuessReq.mk none none none none)).2
      (kCommit u .medium (utcDateKey now))) = true ∧
    isOne ((guessHandler w now u st (GuessReq.mk none none none none)).2
      (kCompleted u .medium (utcDateKey now))) = true ∧
    (guessHandler w now u st (GuessReq.mk none none none none)).2 (kScore u .medium) =
      st (kScore u .medium) := by
  have hm : normalizeMode (GuessReq.mk none none none none).mode = .medium := by decide
  have hdk : resolveDateKey (GuessReq.mk none none none none).dateKey now = utcDateKey now := by
    simp [resolveDateKey, trimStr, isDateShape]
  have hng : normalizeGuess ((GuessReq.mk none none none none).subredditGuess.getD "") = "" := by
    decide
  have hcor : gCorrect (GuessReq.mk none none none none) p = false := by
    simp only [gCorrect, decide_eq_false_iff_not]
    intro hcontra
    rw [hng] at hcontra
    exact hans ((lowerStr_empty_iff p.subreddit).mp (show lowerStr p.subreddit = "" from by
      have : lowerStr "" = "" := rfl
      rw [← hcontra]; rfl))
  have haw : gAward st u .medium (utcDateKey now) (GuessReq.mk none none none none) p = false := by
    simp [gAward, hcor]
  have hfin : gFin (GuessReq.mk none none none none) p = true := by
    simp [gFin, hcor, gStage]
  refine ⟨hm, hdk, rfl, hng, ?_, ?_, ?_, ?_⟩
  · rw [guess_char_fst w now u st _ p .medium (utcDateKey now) hm hdk hc]
    simp [haw, hcor, hfin, gStage]
  · rw [guess_snd_commit w now u st _ p .medium (utcDateKey now) hm hdk hc]
    by_cases hcm : isOne (st (kCommit u .medium (utcDateKey now))) <;> simp [hcm]
  · rw [guess_snd_completed w now u st _ p .medium (utcDateKey now) hm hdk hc]
    by_cases hC : isOne (st (kCompleted u .medium (utcDateKey now))) <;> simp [hC, hfin]
  · rw [guess_snd_score w now u st _ p .medium (utcDateKey now) hm hdk hc]
    simp [haw]

/-- C7: a guess is scored correct exactly when its normalization (optional leading
`/r/` or `r/` stripped, non-`[A-Za-z0-9_]` characters removed) equals the puzzle's
community case-insensitively, and a first correct guess awards 100/60/30 points at
stages 1/2/3; in particular `"r/AskReddit"` normalizes to `"AskReddit"` and matches
the answer `"AskReddit"`. -/
theorem c7_guess_normalization_scoring (w : Snapshot) (now : GDate) (u : String) (st : Store)
    (req : GuessReq) (p : DailyPuzzle) (m : GameMode) (dk : String)
    (hm : normalizeMode req.mode = m) (hdk : resolveDateKey req.dateKey now = dk)
    (hc : st (cacheKey dk m) = some (.puzzle p)) :
    (∃ resp : GuessResp, (guessHandler w now u st req).1 = .ok resp ∧
      resp.correct =
        decide (lowerStr (normalizeGuess (req.subredditGuess.getD "")) = lowerStr p.subreddit) ∧
      (isOne (st (kCompleted u m dk)) = false → isOne (st (kPlayed u m dk)) = false →
        resp.correct = true →
        resp.pointsAwarded =
          (if req.stageUsed.getD 3 = 1 then 100
           else if req.stageUsed.getD 3 = 2 then 60 else 30))) ∧
    normalizeGuess "r/AskReddit" = "AskReddit" ∧
    lowerStr (normalizeGuess "r/AskReddit") = lowerStr "AskReddit" := by
  refine ⟨⟨_, guess_char_fst w now u st req p m dk hm hdk hc, rfl, ?_⟩, by decide, by decide⟩
  intro hC hA hcor
  have hg : gCorrect req p = true := hcor
  have haw : gAward st u m dk req p = true := by simp [gAward, hC, hA, hg]
  simp [haw, gPts, gStage]

/-- C3 (amended): when a win is scored, the streak increments iff the stored
`lastPlayedDay` equals the UTC calendar day before the SERVER's current day
(`Date.now() - 24h`), not the day before the request's `dateKey`; the stored
`lastPlayedDay` then becomes the request's `dateKey`. -/
theorem c3_streak_law (w : Snapshot) (now : GDate) (u : String) (st : Store)
    (req : GuessReq) (p : DailyPuzzle) (m : GameMode) (dk : String)
    (hm : normalizeMode req.mode = m) (hdk : resolveDateKey req.dateKey now = dk)
    (hc : st (cacheKey dk m) = some (.puzzle p))
    (hC : isOne (st (kCompleted u m dk)) = false)
    (hA : isOne (st (kPlayed u m dk)) = false)
    (hG : lowerStr (normalizeGuess (req.subredditGuess.getD "")) = lowerStr p.subreddit) :
    (guessHandler w now u st req).2 (kStreak u m) =
      some (.num (if strOr (st (kLastDate u m)) "" = utcDateKey (prevDay now)
        then numOf (st (kStreak u m)) + 1 else 1)) ∧
    (guessHandler w now u st req).2 (kLastDate u m) = some (.s dk) := by
  have haw : gAward st u m dk req p = true := by simp [gAward, hC, hA, gCorrect, hG]
  constructor
  · rw [guess_snd_streak w now u st req p m dk hm hdk hc]
    simp [haw, gNewStreak]
  · rw [guess_snd_lastDate w now u st req p m dk hm hdk hc]
    simp [haw]

def c3World : Snapshot := ⟨[], fun _ => none, fun _ => [], fun _ => []⟩

def c3Puzzle : DailyPuzzle :=
  { dateKey := "2024-01-11", mode := .medium, subreddit := "AskReddit", postId := "t3_x",
    postTitle := "", postBody := "", commentId := "c1", commentBody := "a comment" }

def c3Store : Store := fun k =>
  if k = cacheKey "2024-01-11" .medium then some (.puzzle c3Puzzle)
  else if k = kStreak "u1" .medium then some (.num 4)
  else if k = kLastDate "u1" .medium then some (.s "2024-01-10")
  else none

def c3Req : GuessReq :=
  { subredditGuess := some "AskReddit", stageUsed := some 1, mode := some "medium",
    dateKey := some "2024-01-11" }

/-- C3 (counterexample): server UTC today is 2024-01-10; the request plays day key
`"2024-01-11"` (inside the accepted ±1 window) with prior state
`{streak: 4, lastPlayedDay: "2024-01-10"}`.  `"2024-01-10"` IS the calendar day
immediately before the win's day key, so the claim predicts streak 5; the code
compares against the server-clock yesterday `"2024-01-09"` and stores streak 1. -/
theorem c3_counterexample :
    resolveDateKey c3Req.dateKey ⟨2024, 1, 10⟩ = "2024-01-11" ∧
    utcDateKey (prevDay ⟨2024, 1, 11⟩) = "2024-01-10" ∧
    strOr (c3Store (kLastDate "u1" .medium)) "" = "2024-01-10" ∧
    numOf (c3Store (kStreak "u1" .medium)) = 4 ∧
    (match (guessHandler c3World ⟨2024, 1, 10⟩ "u1" c3Store c3Req).1 with
      | .ok r => r.correct
      | .error _ => false) = true ∧
    (guessHandler c3World ⟨2024, 1, 10⟩ "u1" c3Store c3Req).2 (kStreak "u1" GameMode.medium) =
      some (.num 1) ∧
    (1 : Nat) ≠ 4 + 1 := by
  decide

def c6World : Snapshot :=
  { allPosts := [{ id := "t3_feed", subredditName := some "testsub" }]
    subInfo := fun s => if s = "testsub" then some { subscribers := some 5000000 } else none
    postsOf := fun s => if s = "testsub" then [{ id := "t3_a", title := some "A title" }] else []
    commentsOf := fun pid =>
      if pid = "t3_a" then [{ id := "c1", body := some "a perfectly ordinary remark about weather" }]
      else [] }

def c6Puzzle : DailyPuzzle :=
  { dateKey := "2024-01-10", mode := .medium, subreddit := "testsub", postId := "t3_a",
    postTitle := "A title", postBody := "", commentId := "c1",
    commentBody := "a perfectly ordinary remark about weather" }

/-- C6 witness: the hypotheses of `c6_build_deterministic` hold at a concrete
snapshot and empty store, and the theorem applies there. -/
theorem c6_build_deterministic_witness :
    ((fun _ => none : Store) (cacheKey "2024-01-10" .medium) = none ∧
      (buildDailyPuzzle c6World "2024-01-10" .medium (fun _ => none)).1 = .ok c6Puzzle) ∧
    ((buildDailyPuzzle c6World "2024-01-10" .medium
        ((buildDailyPuzzle c6World "2024-01-10" .medium (fun _ => none)).2)).1 = .ok c6Puzzle ∧
      ∀ st3 : Store, st3 (cacheKey "2024-01-10" .medium) = none →
        (buildDailyPuzzle c6World "2024-01-10" .medium st3).1 = .ok c6Puzzle) :=
  ⟨⟨rfl, rfl⟩,
    c6_build_deterministic c6World "2024-01-10" .medium (fun _ => none) rfl c6Puzzle rfl⟩

def c7World : Snapshot := ⟨[], fun _ => none, fun _ => [], fun _ => []⟩

def c7Puzzle : DailyPuzzle :=
  { dateKey := "2024-01-10", mode := .medium, subreddit := "AskReddit", postId := "t3_b",
    postTitle := "t", postBody := "", commentId := "c2", commentBody := "body" }

def c7Store : Store := fun k =>
  if k = cacheKey "2024-01-10" .medium then some (.puzzle c7Puzzle) else none

def c7Req : GuessReq :=
  { subredditGuess := some "r/AskReddit", stageUsed := some 1, mode := some "medium",
    dateKey := some "2024-01-10" }

/-- C7 witness: the hypotheses of `c7_guess_normalization_scoring` hold at a concrete
request and store, and the theorem applies there. -/
theorem c7_guess_normalization_scoring_witness :
    (normalizeMode c7Req.mode = .medium ∧
      resolveDateKey c7Req.dateKey ⟨2024, 1, 10⟩ = "2024-01-10" ∧
      c7Store (cacheKey "2024-01-10" .medium) = some (.puzzle c7Puzzle)) ∧
    ((∃ resp : GuessResp,
        (guessHandler c7World ⟨2024, 1, 10⟩ "u1" c7Store c7Req).1 = .ok resp ∧
        resp.correct =
          decide (lowerStr (normalizeGuess (c7Req.subredditGuess.getD "")) =
            lowerStr c7Puzzle.subreddit) ∧
        (isOne (c7Store (kCompleted "u1" .medium "2024-01-10")) = false →
          isOne (c7Store (kPlayed "u1" .medium "2024-01-10")) = false →
          resp.correct = true →
          resp.pointsAwarded =
            (if c7Req.stageUsed.getD 3 = 1 then 100
             else if c7Req.stageUsed.getD 3 = 2 then 60 else 30))) ∧
      normalizeGuess "r/AskReddit" = "AskReddit" ∧
      lowerStr (normalizeGuess "r/AskReddit") = lowerStr "AskReddit") :=
  ⟨⟨by decide, by decide, rfl⟩,
    c7_guess_normalization_scoring c7World ⟨2024, 1, 10⟩ "u1" c7Store c7Req c7Puzzle .medium
      "2024-01-10" (by decide) (by decide) rfl⟩

def c10World : Snapshot := ⟨[], fun _ => none, fun _ => [], fun _ => []⟩

def c10Puzzle : DailyPuzzle :=
  { dateKey := "2024-01-10", mode := .medium, subreddit := "AskReddit", postId := "t3_c",
    postTitle := "t", postBody := "", commentId := "c3", commentBody := "body" }

def c10Store : Store := fun k =>
  if k = cacheKey "2024-01-10" .medium then some (.puzzle c10Puzzle) else none

/-- C10 witness: the hypotheses of `c10_malformed_body_defaults` hold at a concrete
store whose cached medium puzzle has answer `"AskReddit"`, and the theorem applies. -/
theorem c10_malformed_body_defaults_witness :
    (c10Store (cacheKey (utcDateKey ⟨2024, 1, 10⟩) .medium) = some (.puzzle c10Puzzle) ∧
      c10Puzzle.subreddit ≠ "") ∧
    (normalizeMode (GuessReq.mk none none none none).mode = .medium ∧
      resolveDateKey (GuessReq.mk none none none none).dateKey ⟨2024, 1, 10⟩ =
        utcDateKey ⟨2024, 1, 10⟩ ∧
      (GuessReq.mk none none none none).stageUsed.getD 3 = 3 ∧
      normalizeGuess ((GuessReq.mk none none none none).subredditGuess.getD "") = "" ∧
      (guessHandler c10World ⟨2024, 1, 10⟩ "u1" c10Store (GuessReq.mk none none none none)).1 =
        .ok { correct := false, stageUsed := 3, pointsAwarded := 0,
              answer := c10Puzzle.subreddit,
              totalScore := numOf (c10Store (kScore "u1" .medium)),
              streak := numOf (c10Store (kStreak "u1" .medium)),
              modeLocked := .medium, modeIsLocked := true, completedToday := true } ∧
      isOne ((guessHandler c10World ⟨2024, 1, 10⟩ "u1" c10Store
        (GuessReq.mk none none none none)).2
          (kCommit "u1" .medium (utcDateKey ⟨2024, 1, 10⟩))) = true ∧
      isOne ((guessHandler c10World ⟨2024, 1, 10⟩ "u1" c10Store
        (GuessReq.mk none none none none)).2
          (kCompleted "u1" .medium (utcDateKey ⟨2024, 1, 10⟩))) = true ∧
      (guessHandler c10World ⟨2024, 1, 10⟩ "u1" c10Store
        (GuessReq.mk none none none none)).2 (kScore "u1" .medium) =
          c10Store (kScore "u1" .medium)) :=
  ⟨⟨by decide, by decide⟩,
    c10_malformed_body_defaults c10World ⟨2024, 1, 10⟩ "u1" c10Store c10Puzzle (by decide)
      (by decide)⟩

def c3wWorld : Snapshot := ⟨[], fun _ => none, fun _ => [], fun _ => []⟩

def c3wPuzzle : DailyPuzzle :=
  { dateKey := "2024-01-10", mode := .medium, subreddit := "AskReddit", postId := "t3_d",
    postTitle := "t", postBody := "", commentId := "c4", commentBody := "body" }

def c3wStore : Store := fun k =>
  if k = cacheKey "2024-01-10" .medium then some (.puzzle c3wPuzzle)
  else if k = kStreak "u1" .medium then some (.num 4)
  else if k = kLastDate "u1" .medium then some (.s "2024-01-09") else none

def c3wReq : GuessReq :=
  { subredditGuess := some "AskReddit", stageUsed := some 2, mode := some "medium",
    dateKey := some "2024-01-10" }

/-- C3 witness: the hypotheses of `c3_streak_law` hold at a concrete winning guess
(server today 2024-01-10, stored lastPlayedDay 2024-01-09, streak 4), and the
theorem applies there (giving streak 5). -/
theorem c3_streak_law_witness :
    (normalizeMode c3wReq.mode = .medium ∧
      resolveDateKey c3wReq.dateKey ⟨2024, 1, 10⟩ = "2024-01-10" ∧
      c3wStore (cacheKey "2024-01-10" .medium) = some (.puzzle c3wPuzzle) ∧
      isOne (c3wStore (kCompleted "u1" .medium "2024-01-10")) = false ∧
      isOne (c3wStore (kPlayed "u1" .medium "2024-01-10")) = false ∧
      lowerStr (normalizeGuess (c3wReq.subredditGuess.getD "")) =
        lowerStr c3wPuzzle.subreddit) ∧
    ((guessHandler c3wWorld ⟨2024, 1, 10⟩ "u1" c3wStore c3wReq).2 (kStreak "u1" .medium) =
      some (.num (if strOr (c3wStore (kLastDate "u1" .medium)) "" =
          utcDateKey (prevDay ⟨2024, 1, 10⟩)
        then numOf (c3wStore (kStreak "u1" .medium)) + 1 else 1)) ∧
      (guessHandler c3wWorld ⟨2024, 1, 10⟩ "u1" c3wStore c3wReq).2 (kLastDate "u1" .medium) =
        some (.s "2024-01-10")) :=
  ⟨⟨by decide, by decide, rfl, by decide, by decide, by decide⟩,
    c3_streak_law c3wWorld ⟨2024, 1, 10⟩ "u1" c3wStore c3wReq c3wPuzzle .medium "2024-01-10"
      (by decide) (by decide) rfl (by decide) (by decide) (by decide)⟩

/-- `pickIndex` always lands inside a non-empty list. -/
theorem pickIndex_lt (len seed : Nat) (h : 0 < len) : pickIndex len seed < len :=
  Nat.mod_lt _ h

/-- `getD` at an in-range index is a member. -/
theorem getD_mem {α : Type} (l : List α) (n : Nat) (d : α) (h : n < l.length) :
    l.getD n d ∈ l := by
  rw [l.getD_eq_getElem d h]
  exact List.getElem_mem h

/-- Trimming never lengthens a string. -/
theorem trimStr_length_le (s : String) : (trimStr s).length ≤ s.length := by
  show (((s.data.dropWhile isWs).reverse.dropWhile isWs).reverse).length ≤ s.data.length
  rw [List.length_reverse]
  calc ((s.data.dropWhile isWs).reverse.dropWhile isWs).length
      ≤ (s.data.dropWhile isWs).reverse.length := (List.dropWhile_sublist _).length_le
    _ = (s.data.dropWhile isWs).length := List.length_reverse _
    _ ≤ s.data.length := (List.dropWhile_sublist _).length_le

/-- What passing the strict comment filter guarantees. -/
theorem strictOk_props {sub b : String} (h : strictOk sub b = true) :
    b ≠ "" ∧ b ≠ "[deleted]" ∧ b ≠ "[removed]" ∧ 25 ≤ b.length := by
  unfold strictOk at h
  split_ifs at h with h1 h2 h3
  push_neg at h2
  exact ⟨h1, h2.1, h2.2, Nat.le_of_not_lt h3⟩

/-- Every strict-filtered comment also passes the loose filter. -/
theorem strict_implies_loose {sub b : String} (h : strictOk sub b = true) :
    looseOk b = true := by
  obtain ⟨h1, h2, h3, _⟩ := strictOk_props h
  simp [looseOk, h1, h2, h3]

/-- What passing the loose comment filter guarantees. -/
theorem looseOk_props {b : String} (h : looseOk b = true) :
    b ≠ "" ∧ b ≠ "[deleted]" ∧ b ≠ "[removed]" := by
  unfold looseOk at h
  simp only [Bool.and_eq_true, decide_eq_true_eq] at h
  exact ⟨h.1.1, h.1.2, h.2⟩

/-- A non-empty list keeps a non-empty 60-prefix. -/
theorem take60_ne_nil {α : Type} {l : List α} (h : l ≠ []) : l.take 60 ≠ [] := by
  cases l with
  | nil => exact absurd rfl h
  | cons a t => simp [List.take_succ_cons]

/-- The strict pool non-empty forces the loose pool non-empty. -/
theorem usable_ne_nil_loose {w : Snapshot} {dk : String} {m : GameMode}
    (h : usableComments w dk m ≠ []) : looseComments w dk m ≠ [] := by
  obtain ⟨c, hc⟩ := List.exists_mem_of_ne_nil _ h
  unfold usableComments at hc
  rw [List.mem_filter] at hc
  intro hl
  have : c ∈ looseComments w dk m := by
    unfold looseComments
    rw [List.mem_filter]
    exact ⟨hc.1, strict_implies_loose hc.2⟩
  rw [hl] at this
  exact absurd this (List.not_mem_nil c)

/-- The selection pool is non-empty exactly when the loose pool is. -/
theorem commentPool_ne_nil_iff (w : Snapshot) (dk : String) (m : GameMode) :
    commentPool w dk m ≠ [] ↔ looseComments w dk m ≠ [] := by
  unfold commentPool
  by_cases hu : usableComments w dk m ≠ []
  · rw [if_pos hu]
    constructor
    · intro _; exact usable_ne_nil_loose hu
    · intro _; exact take60_ne_nil hu
  · rw [if_neg hu]
    constructor
    · intro h hl; exact h (by rw [hl]; rfl)
    · intro h; exact take60_ne_nil h

/-- C8: `buildDailyPuzzle`'s fresh build selects its comment from the strict
filtered pool whenever that pool is non-empty; when the strict pool is empty it
selects from the looser pool (which only excludes empty, `"[deleted]"` and
`"[removed]"` trimmed bodies); it fails precisely when the chosen community has
no posts or even the loose pool is empty (with no internal retry); and the
strict pool never contains a `"[deleted]"` body or one whose raw comment text
has length 10 (< 25 after trimming). -/
theorem c8_comment_filtering (w : Snapshot) (dk : String) (m : GameMode) :
    ((∃ p, buildFresh w dk m = .ok p) ↔
      (chosenPosts w dk m ≠ [] ∧ looseComments w dk m ≠ [])) ∧
    (∀ p, buildFresh w dk m = .ok p → usableComments w dk m ≠ [] →
      ((p.commentId, p.commentBody) ∈ usableComments w dk m ∧
        strictOk (chosenSubreddit w dk m) p.commentBody = true ∧
        p.commentBody ≠ "[deleted]" ∧ 25 ≤ p.commentBody.length)) ∧
    (∀ p, buildFresh w dk m = .ok p → usableComments w dk m = [] →
      ((p.commentId, p.commentBody) ∈ looseComments w dk m ∧
        looseOk p.commentBody = true ∧
        p.commentBody ≠ "" ∧ p.commentBody ≠ "[deleted]" ∧ p.commentBody ≠ "[removed]")) ∧
    (∀ c ∈ w.commentsOf (chosenPost w dk m).id,
      (c.id, trimStr (c.body.getD "")) ∈ usableComments w dk m →
      trimStr (c.body.getD "") ≠ "[deleted]" ∧ (c.body.getD "").length ≠ 10) := by
  refine ⟨?_, ?_, ?_, ?_⟩
  · constructor
    · rintro ⟨p, hp⟩
      simp only [buildFresh] at hp
      by_cases h1 : chosenPosts w dk m = []
      · rw [if_pos h1] at hp; exact absurd hp (by simp)
      · rw [if_neg h1] at hp
        by_cases h2 : commentPool w dk m = []
        · rw [if_pos h2] at hp; exact absurd hp (by simp)
        · exact ⟨h1, (commentPool_ne_nil_iff w dk m).mp h2⟩
    · rintro ⟨h1, h2⟩
      have hpool : commentPool w dk m ≠ [] := (commentPool_ne_nil_iff w dk m).mpr h2
      cases hfr : buildFresh w dk m with
      | ok q => exact ⟨q, rfl⟩
      | error e =>
        simp only [buildFresh, if_neg h1, if_neg hpool] at hfr
        exact absurd hfr (by simp)
  · intro p hp hu
    simp only [buildFresh] at hp
    by_cases h1 : chosenPosts w dk m = []
    · rw [if_pos h1] at hp; exact absurd hp (by simp)
    · rw [if_neg h1] at hp
      by_cases h2 : commentPool w dk m = []
      · rw [if_pos h2] at hp; exact absurd hp (by simp)
      · rw [if_neg h2] at hp
        injection hp with hpe
        subst hpe
        have hpl : 0 < (commentPool w dk m).length := List.length_pos.mpr h2
        set cmt := (commentPool w dk m).getD
            (pickIndex (commentPool w dk m).length
              (seedFromString
                (dk ++ (":" ++ (modeStr m ++ (":" ++ (chosenSubreddit w dk m ++ ":comment")))))))
            ("", "") with hcmt
        have hmem : cmt ∈ commentPool w dk m := getD_mem _ _ _ (pickIndex_lt _ _ hpl)
        have hpool_sub : commentPool w dk m = (usableComments w dk m).take 60 := by
          unfold commentPool
          rw [if_pos hu]
        have hmem2 : cmt ∈ usableComments w dk m := by
          rw [hpool_sub] at hmem
          exact List.mem_of_mem_take hmem
        have hstrict : strictOk (chosenSubreddit w dk m) cmt.2 = true := by
          have h3 := hmem2
          unfold usableComments at h3
          exact (List.mem_filter.mp h3).2
        obtain ⟨_, hdel, _, hlen⟩ := strictOk_props hstrict
        exact ⟨hmem2, hstrict, hdel, hlen⟩
  · intro p hp hu
    simp only [buildFresh] at hp
    by_cases h1 : chosenPosts w dk m = []
    · rw [if_pos h1] at hp; exact absurd hp (by simp)
    · rw [if_neg h1] at hp
      by_cases h2 : commentPool w dk m = []
      · rw [if_pos h2] at hp; exact absurd hp (by simp)
      · rw [if_neg h2] at hp
        injection hp with hpe
        subst hpe
        have hpl : 0 < (commentPool w dk m).length := List.length_pos.mpr h2
        set cmt := (commentPool w dk m).getD
            (pickIndex (commentPool w dk m).length
              (seedFromString
                (dk ++ (":" ++ (modeStr m ++ (":" ++ (chosenSubreddit w dk m ++ ":comment")))))))
            ("", "") with hcmt
        have hmem : cmt ∈ commentPool w dk m := getD_mem _ _ _ (pickIndex_lt _ _ hpl)
        have hpool_sub : commentPool w dk m = (looseComments w dk m).take 60 := by
          unfold commentPool
          rw [if_neg (fun hcontra => hcontra hu)]
        have hmem2 : cmt ∈ looseComments w dk m := by
          rw [hpool_sub] at hmem
          exact List.mem_of_mem_take hmem
        have hloose : looseOk cmt.2 = true := by
          have h3 := hmem2
          unfold looseComments at h3
          exact (List.mem_filter.mp h3).2
        obtain ⟨hne, hdel, hrem⟩ := looseOk_props hloose
        exact ⟨hmem2, hloose, hne, hdel, hrem⟩
  · intro c _ hmem
    have hstrict : strictOk (chosenSubreddit w dk m) (trimStr (c.body.getD "")) = true := by
      have h3 := hmem
      unfold usableComments at h3
      exact (List.mem_filter.mp h3).2
    obtain ⟨_, hdel, _, hlen⟩ := strictOk_props hstrict
    refine ⟨hdel, ?_⟩
    intro h10
    have := trimStr_length_le (c.body.getD "")
    omega

def c8World : Snapshot :=
  { allPosts := [{ id := "t3_feed8", subredditName := some "booksub" }]
    subInfo := fun s => if s = "booksub" then some { subscribers := some 20000 } else none
    postsOf := fun s => if s = "booksub" then [{ id := "t3_e", title := some "T8" }] else []
    commentsOf := fun pid =>
      if pid = "t3_e" then
        [{ id := "c8short", body := some "short one" },
         { id := "c8good", body := some "this novel kept me up reading all night long" }]
      else [] }


def c8Puzzle : DailyPuzzle :=
  { dateKey := "2024-01-10", mode := .medium, subreddit := "booksub", postId := "t3_e",
    postTitle := "T8", postBody := "", commentId := "c8good",
    commentBody := "this novel kept me up reading all night long" }

def c8fWorld : Snapshot :=
  { allPosts := [{ id := "t3_feed9", subredditName := some "memesub" }]
    subInfo := fun s => if s = "memesub" then some { subscribers := some 30000 } else none
    postsOf := fun s => if s = "memesub" then [{ id := "t3_h", title := some "T9" }] else []
    commentsOf := fun pid =>
      if pid = "t3_h" then
        [{ id := "f1", body := some "[deleted]" },
         { id := "f2", body := some "lol" }]
      else [] }

def c8fPuzzle : DailyPuzzle :=
  { dateKey := "2024-01-10", mode := .medium, subreddit := "memesub", postId := "t3_h",
    postTitle := "T9", postBody := "", commentId := "f2", commentBody := "lol" }

/-- C8 witness: at a concrete snapshot with one promotional-free long comment, the
strict pool is non-empty, the build succeeds, and `c8_comment_filtering` places the
selected comment inside the strict pool with the guaranteed exclusions; at a second
snapshot whose comments are all deleted or too short, the strict pool is empty and
the theorem places the selected comment inside the loose pool. -/
theorem c8_comment_filtering_witness :
    ((buildFresh c8World "2024-01-10" .medium = .ok c8Puzzle ∧
        usableComments c8World "2024-01-10" .medium ≠ []) ∧
      ((c8Puzzle.commentId, c8Puzzle.commentBody) ∈ usableComments c8World "2024-01-10" .medium ∧
        strictOk (chosenSubreddit c8World "2024-01-10" .medium) c8Puzzle.commentBody = true ∧
        c8Puzzle.commentBody ≠ "[deleted]" ∧ 25 ≤ c8Puzzle.commentBody.length)) ∧
    ((buildFresh c8fWorld "2024-01-10" .medium = .ok c8fPuzzle ∧
        usableComments c8fWorld "2024-01-10" .medium = []) ∧
      ((c8fPuzzle.commentId, c8fPuzzle.commentBody) ∈
          looseComments c8fWorld "2024-01-10" .medium ∧
        looseOk c8fPuzzle.commentBody = true ∧
        c8fPuzzle.commentBody ≠ "" ∧ c8fPuzzle.commentBody ≠ "[deleted]" ∧
        c8fPuzzle.commentBody ≠ "[removed]")) :=
  ⟨⟨⟨rfl, by decide⟩,
      (c8_comment_filtering c8World "2024-01-10" .medium).2.1 c8Puzzle rfl (by decide)⟩,
    ⟨⟨rfl, by decide⟩,
      (c8_comment_filtering c8fWorld "2024-01-10" .medium).2.2.1 c8fPuzzle rfl (by decide)⟩⟩

/-- The store transformation of one guess request. -/
def guessStep (w : Snapshot) (now : GDate) (u : String) (st : Store) (req : GuessReq) : Store :=
  (guessHandler w now u st req).2

/-- The store after the first `n` requests of a guess sequence. -/
def runGuesses (w : Snapshot) (now : GDate) (u : String) (st0 : Store) (reqs : List GuessReq)
    (n : Nat) : Store :=
  (reqs.take n).foldl (guessStep w now u) st0

/-- The request's normalized guess matches the puzzle's answer case-insensitively. -/
def matchesAnswer (req : GuessReq) (p : DailyPuzzle) : Prop :=
  lowerStr (normalizeGuess (req.subredditGuess.getD "")) = lowerStr p.subreddit

instance (req : GuessReq) (p : DailyPuzzle) : Decidable (matchesAnswer req p) :=
  inferInstanceAs (Decidable (_ = _))

/-- Points are always positive. -/
theorem gPts_pos (req : GuessReq) : 0 < gPts req := by
  unfold gPts
  split_ifs <;> omega

/-- `gCorrect` decides `matchesAnswer`. -/
theorem gCorrect_iff (req : GuessReq) (p : DailyPuzzle) :
    gCorrect req p = true ↔ matchesAnswer req p := by
  unfold gCorrect matchesAnswer
  exact decide_eq_true_iff

/-- A matching request finishes the day (its `finishesNow` flag is set). -/
theorem gFin_of_matches {req : GuessReq} {p : DailyPuzzle} (h : matchesAnswer req p) :
    gFin req p = true := by
  unfold gFin
  rw [(gCorrect_iff req p).mpr h]
  rfl

/-- An award requires: not completed, matching guess, not yet awarded. -/
theorem gAward_parts {st : Store} {u : String} {m : GameMode} {dk : String} {req : GuessReq}
    {p : DailyPuzzle} (h : gAward st u m dk req p = true) :
    isOne (st (kCompleted u m dk)) = false ∧ matchesAnswer req p ∧
      isOne (st (kPlayed u m dk)) = false := by
  unfold gAward at h
  rw [Bool.and_eq_true, Bool.and_eq_true] at h
  exact ⟨by simpa using h.1, (gCorrect_iff req p).mp h.2.1, by simpa using h.2.2⟩

/-- One guess step: the cache entry survives. -/
theorem guessStep_cache (w : Snapshot) (now : GDate) (u : String) (st : Store) (req : GuessReq)
    (p : DailyPuzzle) (m : GameMode) (dk : String)
    (hm : normalizeMode req.mode = m) (hdk : resolveDateKey req.dateKey now = dk)
    (hc : st (cacheKey dk m) = some (.puzzle p)) :
    guessStep w now u st req (cacheKey dk m) = some (.puzzle p) := by
  unfold guessStep
  rw [guess_snd_frame w now u st req p m dk hm hdk hc (cacheKey dk m)
    (cacheKey_ne_kScore dk m u m) (cacheKey_ne_kStreak dk m u m)
    (cacheKey_ne_kLastDate dk m u m) (cacheKey_ne_kPlayed dk m u m dk)
    (cacheKey_ne_kCommit dk m u m dk) (cacheKey_ne_kCompleted dk m u m dk)]
  exact hc

/-- One guess step: the completed flag afterwards is `before OR finishesNow`. -/
theorem guessStep_completed (w : Snapshot) (now : GDate) (u : String) (st : Store)
    (req : GuessReq) (p : DailyPuzzle) (m : GameMode) (dk : String)
    (hm : normalizeMode req.mode = m) (hdk : resolveDateKey req.dateKey now = dk)
    (hc : st (cacheKey dk m) = some (.puzzle p)) :
    isOne (guessStep w now u st req (kCompleted u m dk)) =
      (isOne (st (kCompleted u m dk)) || gFin req p) := by
  unfold guessStep
  rw [guess_snd_completed w now u st req p m dk hm hdk hc]
  by_cases hC : isOne (st (kCompleted u m dk)) <;> by_cases hf : gFin req p = true <;>
    simp [hC, hf]

/-- One guess step: the score is unchanged unless the award fires, in which case
it strictly increases. -/
theorem guessStep_score (w : Snapshot) (now : GDate) (u : String) (st : Store)
    (req : GuessReq) (p : DailyPuzzle) (m : GameMode) (dk : String)
    (hm : normalizeMode req.mode = m) (hdk : resolveDateKey req.dateKey now = dk)
    (hc : st (cacheKey dk m) = some (.puzzle p)) :
    numOf (guessStep w now u st req (kScore u m)) =
      (if gAward st u m dk req p then numOf (st (kScore u m)) + gPts req
       else numOf (st (kScore u m))) := by
  unfold guessStep
  rw [guess_snd_score w now u st req p m dk hm hdk hc]
  by_cases haw : gAward st u m dk req p = true <;> simp [haw]

/-- Unfolding one step of a guess trace. -/
theorem runGuesses_succ (w : Snapshot) (now : GDate) (u : String) (st0 : Store)
    (reqs : List GuessReq) (i : Nat) (hi : i < reqs.length) :
    runGuesses w now u st0 reqs (i + 1) =
      guessStep w now u (runGuesses w now u st0 reqs i) (reqs.get ⟨i, hi⟩) := by
  unfold runGuesses
  rw [List.take_succ, List.getElem?_eq_getElem hi, List.foldl_append]
  rfl

/-- Traces are stable past the end of the request list. -/
theorem runGuesses_stable (w : Snapshot) (now : GDate) (u : String) (st0 : Store)
    (reqs : List GuessReq) (n : Nat) (hn : reqs.length ≤ n) :
    runGuesses w now u st0 reqs (n + 1) = runGuesses w now u st0 reqs n := by
  unfold runGuesses
  rw [List.take_of_length_le hn, List.take_of_length_le (le_trans hn (Nat.le_succ n))]

/-- Trace invariant for C2: the cache entry survives every step, and once some
processed request matched the answer, the completed flag is set. -/
theorem c2_inv (w : Snapshot) (now : GDate) (u : String) (st0 : Store)
    (reqs : List GuessReq) (m : GameMode) (dk : String) (p : DailyPuzzle)
    (hres : ∀ r ∈ reqs, normalizeMode r.mode = m ∧ resolveDateKey r.dateKey now = dk)
    (hc : st0 (cacheKey dk m) = some (.puzzle p)) :
    ∀ n : Nat, runGuesses w now u st0 reqs n (cacheKey dk m) = some (.puzzle p) ∧
      (∀ j (hj : j < reqs.length), j < n → matchesAnswer (reqs.get ⟨j, hj⟩) p →
        isOne (runGuesses w now u st0 reqs n (kCompleted u m dk)) = true) := by
  intro n
  induction n with
  | zero =>
    refine ⟨hc, ?_⟩
    intro j hj hj0
    omega
  | succ n ih =>
    by_cases hn : n < reqs.length
    · have hmem := List.get_mem reqs n hn
      obtain ⟨hm, hdk⟩ := hres _ hmem
      rw [runGuesses_succ w now u st0 reqs n hn]
      refine ⟨guessStep_cache w now u _ _ p m dk hm hdk ih.1, ?_⟩
      intro j hj hjn hmatch
      rw [guessStep_completed w now u _ _ p m dk hm hdk ih.1]
      by_cases hjn2 : j < n
      · rw [ih.2 j hj hjn2 hmatch]
        rfl
      · have hje : j = n := by omega
        subst hje
        rw [gFin_of_matches hmatch]
        simp
    · rw [runGuesses_stable w now u st0 reqs n (by omega)]
      refine ⟨ih.1, ?_⟩
      intro j hj hjn hmatch
      exact ih.2 j hj (by omega) hmatch

/-- C2: along any sequence of guess requests for one (user, mode, dateKey), each
request either leaves the stored total score unchanged or strictly increases it
while being the first request whose normalized guess matches the puzzle's answer;
hence at most one request (the first correct one) ever increases the score. -/
theorem c2_single_award (w : Snapshot) (now : GDate) (u : String) (st0 : Store)
    (reqs : List GuessReq) (m : GameMode) (dk : String) (p : DailyPuzzle)
    (hres : ∀ r ∈ reqs, normalizeMode r.mode = m ∧ resolveDateKey r.dateKey now = dk)
    (hc : st0 (cacheKey dk m) = some (.puzzle p)) :
    ∀ i (hi : i < reqs.length),
      numOf (runGuesses w now u st0 reqs (i + 1) (kScore u m)) =
          numOf (runGuesses w now u st0 reqs i (kScore u m)) ∨
        (numOf (runGuesses w now u st0 reqs i (kScore u m)) <
            numOf (runGuesses w now u st0 reqs (i + 1) (kScore u m)) ∧
          matchesAnswer (reqs.get ⟨i, hi⟩) p ∧
          ∀ j (hj : j < reqs.length), j < i → ¬ matchesAnswer (reqs.get ⟨j, hj⟩) p) := by
  intro i hi
  have hmem := List.get_mem reqs i hi
  obtain ⟨hm, hdk⟩ := hres _ hmem
  have hinv := c2_inv w now u st0 reqs m dk p hres hc i
  rw [runGuesses_succ w now u st0 reqs i hi,
    guessStep_score w now u _ _ p m dk hm hdk hinv.1]
  by_cases haw : gAward (runGuesses w now u st0 reqs i) u m dk (reqs.get ⟨i, hi⟩) p = true
  · right
    obtain ⟨hC, hmatch, _⟩ := gAward_parts haw
    rw [if_pos haw]
    refine ⟨by have := gPts_pos (reqs.get ⟨i, hi⟩); omega, hmatch, ?_⟩
    intro j hj hji hmj
    rw [hinv.2 j hj hji hmj] at hC
    exact absurd hC (by simp)
  · left
    rw [if_neg haw]

/-- A post-completion action: another guess, or a give-up. -/
inductive GAct : Type
  | guess (req : GuessReq)
  | giveUp (modeB dateB : Option String)

/-- The store after an action together with the `answer` field of its response
(`none` when the request errors). -/
def actApply (w : Snapshot) (now : GDate) (u : String) (st : Store) : GAct → Store × Option String
  | .guess req =>
    ((guessHandler w now u st req).2,
      match (guessHandler w now u st req).1 with
      | .ok resp => some resp.answer
      | .error _ => none)
  | .giveUp modeB dateB =>
    ((giveupHandler w now u st modeB dateB).2,
      match (giveupHandler w now u st modeB dateB).1 with
      | .ok resp => some resp.answer
      | .error _ => none)

/-- An action addresses the given mode and date key. -/
def actResolves (now : GDate) (m : GameMode) (dk : String) : GAct → Prop
  | .guess req => normalizeMode req.mode = m ∧ resolveDateKey req.dateKey now = dk
  | .giveUp modeB dateB => normalizeMode modeB = m ∧ resolveDateKey dateB now = dk

instance (now : GDate) (m : GameMode) (dk : String) (a : GAct) :
    Decidable (actResolves now m dk a) :=
  match a with
  | .guess _ => inferInstanceAs (Decidable (_ ∧ _))
  | .giveUp _ _ => inferInstanceAs (Decidable (_ ∧ _))

/-- Run a list of actions, collecting the answers returned along the way. -/
def runActs (w : Snapshot) (now : GDate) (u : String) (st : Store) :
    List GAct → Store × List (Option String)
  | [] => (st, [])
  | a :: t =>
    let r := actApply w now u st a
    let rest := runActs w now u r.1 t
    (rest.1, r.2 :: rest.2)

/-- One action on a completed day: all scoring state survives untouched, the
completed flag stays set, the cache entry survives, and the response's answer is
the cached puzzle's community. -/
theorem actApply_completed (w : Snapshot) (now : GDate) (u : String) (st : Store)
    (m : GameMode) (dk : String) (p : DailyPuzzle) (a : GAct)
    (ha : actResolves now m dk a)
    (hc : st (cacheKey dk m) = some (.puzzle p))
    (hcomp : st (kCompleted u m dk) = some (.s "1")) :
    (actApply w now u st a).1 (kScore u m) = st (kScore u m) ∧
    (actApply w now u st a).1 (kStreak u m) = st (kStreak u m) ∧
    (actApply w now u st a).1 (kLastDate u m) = st (kLastDate u m) ∧
    (actApply w now u st a).1 (kCompleted u m dk) = some (.s "1") ∧
    (actApply w now u st a).1 (cacheKey dk m) = some (.puzzle p) ∧
    (actApply w now u st a).2 = some p.subreddit := by
  have hCone : isOne (st (kCompleted u m dk)) = true := by rw [hcomp]; rfl
  cases a with
  | guess req =>
    obtain ⟨hm, hdk⟩ := ha
    have haw : gAward st u m dk req p = false := by
      unfold gAward
      rw [hCone]
      rfl
    refine ⟨?_, ?_, ?_, ?_, ?_, ?_⟩
    · show (guessHandler w now u st req).2 (kScore u m) = st (kScore u m)
      rw [guess_snd_score w now u st req p m dk hm hdk hc, haw]
      rfl
    · show (guessHandler w now u st req).2 (kStreak u m) = st (kStreak u m)
      rw [guess_snd_streak w now u st req p m dk hm hdk hc, haw]
      rfl
    · show (guessHandler w now u st req).2 (kLastDate u m) = st (kLastDate u m)
      rw [guess_snd_lastDate w now u st req p m dk hm hdk hc, haw]
      rfl
    · show (guessHandler w now u st req).2 (kCompleted u m dk) = some (.s "1")
      rw [guess_snd_completed w now u st req p m dk hm hdk hc, hCone]
      simpa using hcomp
    · exact guessStep_cache w now u st req p m dk hm hdk hc
    · show (match (guessHandler w now u st req).1 with
        | .ok resp => some resp.answer
        | .error _ => none) = some p.subreddit
      rw [guess_char_fst w now u st req p m dk hm hdk hc]
  | giveUp modeB dateB =>
    obtain ⟨hm, hdk⟩ := ha
    refine ⟨?_, ?_, ?_, ?_, ?_, ?_⟩
    · exact giveup_snd_frame w now u st modeB dateB p m dk hm hdk hc _ (by simp) (by simp)
    · exact giveup_snd_frame w now u st modeB dateB p m dk hm hdk hc _ (by simp) (by simp)
    · exact giveup_snd_frame w now u st modeB dateB p m dk hm hdk hc _ (by simp) (by simp)
    · show (giveupHandler w now u st modeB dateB).2 (kCompleted u m dk) = some (.s "1")
      rw [giveup_snd_completed w now u st modeB dateB p m dk hm hdk hc, hCone]
      simpa using hcomp
    · show (giveupHandler w now u st modeB dateB).2 (cacheKey dk m) = some (.puzzle p)
      rw [giveup_snd_frame w now u st modeB dateB p m dk hm hdk hc _ (by simp) (by simp)]
      exact hc
    · show (match (giveupHandler w now u st modeB dateB).1 with
        | .ok resp => some resp.answer
        | .error _ => none) = some p.subreddit
      rw [giveup_fst w now u st modeB dateB p m dk hm hdk hc]

/-- C4: once the completed flag is set for (user, mode, dateKey), any sequence of
further guess or give-up requests leaves totalScore, streak and lastPlayedDay
unchanged, keeps the completed flag set, and every response returns the cached
puzzle's community as the answer. -/
theorem c4_completed_absorbing (w : Snapshot) (now : GDate) (u : String) (st0 : Store)
    (m : GameMode) (dk : String) (p : DailyPuzzle) (acts : List GAct)
    (hres : ∀ a ∈ acts, actResolves now m dk a)
    (hc : st0 (cacheKey dk m) = some (.puzzle p))
    (hcomp : st0 (kCompleted u m dk) = some (.s "1")) :
    (runActs w now u st0 acts).1 (kScore u m) = st0 (kScore u m) ∧
    (runActs w now u st0 acts).1 (kStreak u m) = st0 (kStreak u m) ∧
    (runActs w now u st0 acts).1 (kLastDate u m) = st0 (kLastDate u m) ∧
    (runActs w now u st0 acts).1 (kCompleted u m dk) = some (.s "1") ∧
    ∀ ans ∈ (runActs w now u st0 acts).2, ans = some p.subreddit := by
  induction acts generalizing st0 with
  | nil =>
    refine ⟨rfl, rfl, rfl, hcomp, ?_⟩
    intro ans h
    exact absurd h (List.not_mem_nil ans)
  | cons a t ih =>
    have ha := hres a (List.mem_cons_self a t)
    have hstep := actApply_completed w now u st0 m dk p a ha hc hcomp
    have hrest := ih (actApply w now u st0 a).1 (fun b hb => hres b (List.mem_cons_of_mem a hb))
      hstep.2.2.2.2.1 hstep.2.2.2.1
    show ((runActs w now u (actApply w now u st0 a).1 t).1 (kScore u m) = _ ∧ _ ∧ _ ∧ _ ∧
      ∀ ans ∈ (actApply w now u st0 a).2 ::
        (runActs w now u (actApply w now u st0 a).1 t).2, ans = some p.subreddit)
    refine ⟨hrest.1.trans hstep.1, hrest.2.1.trans hstep.2.1,
      hrest.2.2.1.trans hstep.2.2.1, hrest.2.2.2.1, ?_⟩
    intro ans h
    rcases List.mem_cons.mp h with h1 | h2
    · rw [h1]; exact hstep.2.2.2.2.2
    · exact hrest.2.2.2.2 ans h2

def c2World : Snapshot := ⟨[], fun _ => none, fun _ => [], fun _ => []⟩

def c2Puzzle : DailyPuzzle :=
  { dateKey := "2024-01-10", mode := .medium, subreddit := "AskReddit", postId := "t3_f",
    postTitle := "t", postBody := "", commentId := "c5", commentBody := "body" }

def c2Store : Store := fun k =>
  if k = cacheKey "2024-01-10" .medium then some (.puzzle c2Puzzle) else none

def c2Reqs : List GuessReq :=
  [{ subredditGuess := some "wrong", stageUsed := some 1, mode := some "medium",
     dateKey := some "2024-01-10" },
   { subredditGuess := some "AskReddit", stageUsed := some 2, mode := some "medium",
     dateKey := some "2024-01-10" },
   { subredditGuess := some "askreddit", stageUsed := some 3, mode := some "medium",
     dateKey := some "2024-01-10" }]

/-- C2 witness: the hypotheses of `c2_single_award` hold at a concrete three-request
trace (wrong, correct, correct again) and the theorem applies there. -/
theorem c2_single_award_witness :
    ((∀ r ∈ c2Reqs, normalizeMode r.mode = GameMode.medium ∧
        resolveDateKey r.dateKey ⟨2024, 1, 10⟩ = "2024-01-10") ∧
      c2Store (cacheKey "2024-01-10" .medium) = some (.puzzle c2Puzzle)) ∧
    (∀ i (hi : i < c2Reqs.length),
      numOf (runGuesses c2World ⟨2024, 1, 10⟩ "u1" c2Store c2Reqs (i + 1)
          (kScore "u1" .medium)) =
          numOf (runGuesses c2World ⟨2024, 1, 10⟩ "u1" c2Store c2Reqs i
            (kScore "u1" .medium)) ∨
        (numOf (runGuesses c2World ⟨2024, 1, 10⟩ "u1" c2Store c2Reqs i
              (kScore "u1" .medium)) <
            numOf (runGuesses c2World ⟨2024, 1, 10⟩ "u1" c2Store c2Reqs (i + 1)
              (kScore "u1" .medium)) ∧
          matchesAnswer (c2Reqs.get ⟨i, hi⟩) c2Puzzle ∧
          ∀ j (hj : j < c2Reqs.length), j < i →
            ¬ matchesAnswer (c2Reqs.get ⟨j, hj⟩) c2Puzzle)) :=
  ⟨⟨by decide, rfl⟩,
    c2_single_award c2World ⟨2024, 1, 10⟩ "u1" c2Store c2Reqs .medium "2024-01-10" c2Puzzle
      (by decide) rfl⟩

def c4World : Snapshot := ⟨[], fun _ => none, fun _ => [], fun _ => []⟩

def c4Puzzle : DailyPuzzle :=
  { dateKey := "2024-01-10", mode := .medium, subreddit := "AskReddit", postId := "t3_g",
    postTitle := "t", postBody := "", commentId := "c6", commentBody := "body" }

def c4Store : Store := fun k =>
  if k = cacheKey "2024-01-10" .medium then some (.puzzle c4Puzzle)
  else if k = kCompleted "u1" .medium "2024-01-10" then some (.s "1")
  else if k = kScore "u1" .medium then some (.num 130)
  else if k = kStreak "u1" .medium then some (.num 2)
  else if k = kLastDate "u1" .medium then some (.s "2024-01-10") else none

def c4Acts : List GAct :=
  [.guess { subredditGuess := some "AskReddit", stageUsed := some 1, mode := some "medium",
            dateKey := some "2024-01-10" },
   .giveUp (some "medium") (some "2024-01-10"),
   .guess { subredditGuess := some "nope", stageUsed := some 3, mode := some "medium",
            dateKey := some "2024-01-10" }]

/-- C4 witness: the hypotheses of `c4_completed_absorbing` hold at a concrete
completed state followed by a guess, a give-up and another guess, and the theorem
applies there. -/
theorem c4_completed_absorbing_witness :
    ((∀ a ∈ c4Acts, actResolves ⟨2024, 1, 10⟩ GameMode.medium "2024-01-10" a) ∧
      c4Store (cacheKey "2024-01-10" .medium) = some (.puzzle c4Puzzle) ∧
      c4Store (kCompleted "u1" .medium "2024-01-10") = some (.s "1")) ∧
    ((runActs c4World ⟨2024, 1, 10⟩ "u1" c4Store c4Acts).1 (kScore "u1" .medium) =
        c4Store (kScore "u1" .medium) ∧
      (runActs c4World ⟨2024, 1, 10⟩ "u1" c4Store c4Acts).1 (kStreak "u1" .medium) =
        c4Store (kStreak "u1" .medium) ∧
      (runActs c4World ⟨2024, 1, 10⟩ "u1" c4Store c4Acts).1 (kLastDate "u1" .medium) =
        c4Store (kLastDate "u1" .medium) ∧
      (runActs c4World ⟨2024, 1, 10⟩ "u1" c4Store c4Acts).1
        (kCompleted "u1" .medium "2024-01-10") = some (.s "1") ∧
      ∀ ans ∈ (runActs c4World ⟨2024, 1, 10⟩ "u1" c4Store c4Acts).2,
        ans = some c4Puzzle.subreddit) :=
  ⟨⟨by decide, rfl, by decide⟩,
    c4_completed_absorbing c4World ⟨2024, 1, 10⟩ "u1" c4Store .medium "2024-01-10" c4Puzzle
      c4Acts (by decide) rfl (by decide)⟩

/-- Membership through stable descending insertion. -/
theorem insDesc_mem {x y : String × Int} {l : List (String × Int)} :
    x ∈ insDesc y l ↔ x = y ∨ x ∈ l := by
  induction l with
  | nil => simp [insDesc]
  | cons a t ih =>
    unfold insDesc
    by_cases h : a.2 ≥ y.2
    · rw [if_pos h]
      simp only [List.mem_cons, ih]
      tauto
    · rw [if_neg h]
      simp only [List.mem_cons]

/-- Membership is preserved by the stable descending sort. -/
theorem sortDesc_mem {x : String × Int} {l : List (String × Int)} :
    x ∈ sortDesc l ↔ x ∈ l := by
  induction l with
  | nil => simp [sortDesc]
  | cons a t ih =>
    unfold sortDesc
    rw [insDesc_mem]
    simp [ih]

/-- Stable descending insertion adds exactly one element. -/
theorem insDesc_length (y : String × Int) (l : List (String × Int)) :
    (insDesc y l).length = l.length + 1 := by
  induction l with
  | nil => rfl
  | cons a t ih =>
    unfold insDesc
    by_cases h : a.2 ≥ y.2
    · rw [if_pos h]
      simp [ih]
    · rw [if_neg h]
      simp

/-- The stable descending sort preserves length. -/
theorem sortDesc_length (l : List (String × Int)) : (sortDesc l).length = l.length := by
  induction l with
  | nil => rfl
  | cons a t ih =>
    unfold sortDesc
    rw [insDesc_length, ih]
    rfl

/-- What membership in the `qualifying` bucket guarantees: a successful metadata
lookup with a known positive subscriber count at or above the threshold. -/
theorem emScan_qual (w : Snapshot) (minSubs : Nat) :
    ∀ (l : List String) (q : List (String × Int)) (u : List String),
      (∀ x ∈ q, ∃ info, w.subInfo x.1 = some info ∧ x.2 = getSubscriberCount info ∧
        0 < x.2 ∧ (minSubs : Int) ≤ x.2) →
      ∀ x ∈ (emScan w minSubs l q u).1,
        ∃ info, w.subInfo x.1 = some info ∧ x.2 = getSubscriberCount info ∧
          0 < x.2 ∧ (minSubs : Int) ≤ x.2 := by
  intro l
  induction l with
  | nil => intro q u hq; exact hq
  | cons s rest ih =>
    intro q u hq
    unfold emScan
    cases hinfo : w.subInfo s with
    | none => exact ih q u hq
    | some info =>
      dsimp only
      by_cases hn : isNsfwSub info = true
      · rw [if_pos hn]
        exact ih q u hq
      · rw [if_neg hn]
        by_cases hpos : 0 < getSubscriberCount info
        · rw [if_pos hpos]
          by_cases hmin : getSubscriberCount info ≥ (minSubs : Int)
          · rw [if_pos hmin]
            have hq1 : ∀ x ∈ q ++ [(s, getSubscriberCount info)],
                ∃ i2, w.subInfo x.1 = some i2 ∧ x.2 = getSubscriberCount i2 ∧
                  0 < x.2 ∧ (minSubs : Int) ≤ x.2 := by
              intro x hx
              rcases List.mem_append.mp hx with h1 | h2
              · exact hq x h1
              · rw [List.mem_singleton.mp h2]
                exact ⟨info, hinfo, rfl, hpos, hmin⟩
            by_cases h12 : (q ++ [(s, getSubscriberCount info)]).length ≥ 12
            · rw [if_pos h12]
              exact hq1
            · rw [if_neg h12]
              exact ih _ u hq1
          · rw [if_neg hmin]
            by_cases h12 : q.length ≥ 12
            · rw [if_pos h12]
              exact hq
            · rw [if_neg h12]
              exact ih q u hq
        · rw [if_neg hpos]
          by_cases h12 : q.length ≥ 12
          · rw [if_pos h12]
            exact hq
          · rw [if_neg h12]
            exact ih q (u ++ [s]) hq

/-- When the qualifying bucket is non-empty, the easy/medium strict selection is
drawn from it. -/
theorem pickStrict_from_qualifying (w : Snapshot) (dk : String) (mode : GameMode)
    (hmode : mode ≠ .hard) (hq : (emBuckets w dk mode).1 ≠ []) :
    ∃ c ∈ (emBuckets w dk mode).1, pickSubredditForModeStrict w dk mode = c.1 := by
  have hscan : subsToScan w dk mode ≠ [] := by
    intro hs
    apply hq
    unfold emBuckets
    rw [hs]
    rfl
  unfold pickSubredditForModeStrict
  rw [if_neg hscan, if_neg hmode]
  rcases heb : emBuckets w dk mode with ⟨q, ub⟩
  rw [heb] at hq
  simp only at hq ⊢
  rw [if_pos hq]
  set bucket := if mode = .easy then (sortDesc q).take 12 else q with hbucket
  have hbsub : ∀ x ∈ bucket, x ∈ q := by
    intro x hx
    rw [hbucket] at hx
    by_cases he : mode = .easy
    · rw [if_pos he] at hx
      exact sortDesc_mem.mp (List.mem_of_mem_take hx)
    · rw [if_neg he] at hx
      exact hx
  have hblen : 0 < bucket.length := by
    rw [hbucket]
    by_cases he : mode = .easy
    · rw [if_pos he]
      rw [List.length_take, sortDesc_length]
      have : 0 < q.length := List.length_pos.mpr hq
      omega
    · rw [if_neg he]
      exact List.length_pos.mpr hq
  refine ⟨bucket.getD
    (pickIndex bucket.length
      (seedFromString (dk ++ (":" ++ (modeStr mode ++ ":pickQualified"))))) ("", 0), ?_, rfl⟩
  exact hbsub _ (getD_mem _ _ _ (pickIndex_lt _ _ hblen))

def c1World : Snapshot :=
  { allPosts := [{ id := "t3_p1", subredditName := some "alpha" },
                 { id := "t3_p2", subredditName := some "bravo" }]
    subInfo := fun s =>
      if s = "alpha" then some {}
      else if s = "bravo" then some { subscribers := some 5000000 } else none
    postsOf := fun _ => []
    commentsOf := fun _ => [] }


/-- C1 (counterexample): in the richer file's lenient `pickSubredditForMode`, a
community whose metadata has no subscriber-count field ("alpha", count read as 0)
passes the easy-tier gate inside the scan loop and is returned, even though a
fully-qualifying community ("bravo", 5,000,000 subscribers, above the 1,000,000
easy threshold) is also among the candidates — contradicting the claim that an
unknown count never qualifies and can only be returned via a fallback after no
fully-qualifying candidate is found. -/
theorem c1_counterexample :
    pickSubredditForMode c1World "2024-01-10" .easy = "alpha" ∧
    c1World.subInfo "alpha" = some {} ∧
    getSubscriberCount {} = 0 ∧
    "bravo" ∈ feedSubNames c1World.allPosts ∧
    c1World.subInfo "bravo" = some { subscribers := some 5000000 } ∧
    getSubscriberCount { subscribers := some 5000000 } = 5000000 ∧
    (1000000 : Int) ≤ 5000000 ∧
    minSubsForMode .easy = 1000000 := by
  decide

/-- C1 (amended): in the second route variant's bucketed `pickSubredditForMode`,
every member of the easy/medium `qualifying` bucket has a successful metadata
lookup with a known positive subscriber count at or above the tier threshold, and
whenever that bucket is non-empty the selected community is drawn from it; an
unknown count can therefore reach the result only through the
`unknownButSafe`/full-list fallbacks, once the bounded scan found no qualifying
candidate.  (The richer file's lenient variant instead treats an unknown count as
qualifying, per the counterexample.) -/
theorem c1_unknown_never_qualifies (w : Snapshot) (dk : String) (mode : GameMode)
    (hmode : mode = .easy ∨ mode = .medium) :
    (∀ x ∈ (emBuckets w dk mode).1, ∃ info, w.subInfo x.1 = some info ∧
      x.2 = getSubscriberCount info ∧ 0 < x.2 ∧ ((minSubsForMode mode : Int)) ≤ x.2) ∧
    ((emBuckets w dk mode).1 ≠ [] →
      ∃ c ∈ (emBuckets w dk mode).1, pickSubredditForModeStrict w dk mode = c.1 ∧
        ∃ info, w.subInfo c.1 = some info ∧ 0 < getSubscriberCount info ∧
          ((minSubsForMode mode : Int)) ≤ getSubscriberCount info) := by
  have hqual : ∀ x ∈ (emBuckets w dk mode).1, ∃ info, w.subInfo x.1 = some info ∧
      x.2 = getSubscriberCount info ∧ 0 < x.2 ∧ ((minSubsForMode mode : Int)) ≤ x.2 := by
    intro x hx
    exact emScan_qual w (minSubsForMode mode) _ [] [] (by intro y hy; cases hy) x hx
  refine ⟨hqual, ?_⟩
  intro hq
  have hmode2 : mode ≠ .hard := by
    rcases hmode with h | h <;> (rw [h]; intro hcontra; cases hcontra)
  obtain ⟨c, hcmem, hcpick⟩ := pickStrict_from_qualifying w dk mode hmode2 hq
  obtain ⟨info, hinfo, hcount, hpos, hmin⟩ := hqual c hcmem
  exact ⟨c, hcmem, hcpick, info, hinfo, by rw [← hcount]; exact hpos,
    by rw [← hcount]; exact hmin⟩



def c1sWorld : Snapshot :=
  { allPosts := [{ id := "t3_q1", subredditName := some "gamma" }]
    subInfo := fun s => if s = "gamma" then some { subscribers := some 2000000 } else none
    postsOf := fun _ => []
    commentsOf := fun _ => [] }

/-- C1 witness: the hypotheses of `c1_unknown_never_qualifies` hold for the easy
tier at a concrete snapshot with one known 2,000,000-subscriber community, and the
theorem applies there. -/
theorem c1_unknown_never_qualifies_witness :
    ((GameMode.easy = GameMode.easy ∨ GameMode.easy = GameMode.medium) ∧
      (emBuckets c1sWorld "2024-01-10" GameMode.easy).1 ≠ []) ∧
    ((∀ x ∈ (emBuckets c1sWorld "2024-01-10" GameMode.easy).1, ∃ info,
        c1sWorld.subInfo x.1 = some info ∧ x.2 = getSubscriberCount info ∧
        0 < x.2 ∧ ((minSubsForMode GameMode.easy : Int)) ≤ x.2) ∧
      ((emBuckets c1sWorld "2024-01-10" GameMode.easy).1 ≠ [] →
        ∃ c ∈ (emBuckets c1sWorld "2024-01-10" GameMode.easy).1,
          pickSubredditForModeStrict c1sWorld "2024-01-10" GameMode.easy = c.1 ∧
          ∃ info, c1sWorld.subInfo c.1 = some info ∧ 0 < getSubscriberCount info ∧
            ((minSubsForMode GameMode.easy : Int)) ≤ getSubscriberCount info)) :=
  by
  refine ⟨⟨Or.inl rfl, ?_⟩, ?_⟩
  · decide
  · exact c1_unknown_never_qualifies c1sWorld "2024-01-10" GameMode.easy (Or.inl rfl)

def c5World : Snapshot :=
  { allPosts := [{ id := "t3_s1", subredditName := some "smallsub" },
                 { id := "t3_s2", subredditName := some "bigsub" }]
    subInfo := fun s =>
      if s = "smallsub" then some { subscribers := some 1000000 }
      else if s = "bigsub" then some { subscribers := some 5000000 } else none
    postsOf := fun _ => []
    commentsOf := fun _ => [] }

/-- C5 (counterexample): with two known communities of 1,000,000 and 5,000,000
subscribers (both qualifying for both tiers), the deterministic seeds for day key
`"2024-01-13"` make the easy tier select the 1,000,000 community and the medium
tier the 5,000,000 community: both counts are known, yet easy's count is strictly
below medium's. -/
theorem c5_counterexample :
    pickSubredditForModeStrict c5World "2024-01-13" .easy = "smallsub" ∧
    pickSubredditForModeStrict c5World "2024-01-13" .medium = "bigsub" ∧
    c5World.subInfo "smallsub" = some { subscribers := some 1000000 } ∧
    c5World.subInfo "bigsub" = some { subscribers := some 5000000 } ∧
    getSubscriberCount { subscribers := some 1000000 } = 1000000 ∧
    getSubscriberCount { subscribers := some 5000000 } = 5000000 ∧
    (1000000 : Int) < 5000000 := by
  decide

/-- C5 (amended): whenever both the easy and the medium qualifying buckets are
non-empty, each tier's selected community has a known positive subscriber count
meeting its own tier threshold (1,000,000 for easy, 10,000 for medium, and the
easy threshold dominates the medium one); the pointwise comparison between the
two selected counts is not guaranteed. -/
theorem c5_tier_thresholds (w : Snapshot) (dk : String)
    (hqe : (emBuckets w dk .easy).1 ≠ []) (hqm : (emBuckets w dk .medium).1 ≠ []) :
    (∃ info, w.subInfo (pickSubredditForModeStrict w dk .easy) = some info ∧
      (1000000 : Int) ≤ getSubscriberCount info ∧ 0 < getSubscriberCount info) ∧
    (∃ info, w.subInfo (pickSubredditForModeStrict w dk .medium) = some info ∧
      (10000 : Int) ≤ getSubscriberCount info ∧ 0 < getSubscriberCount info) ∧
    minSubsForMode .medium ≤ minSubsForMode .easy := by
  have he := pickStrict_from_qualifying w dk .easy (by intro h; cases h) hqe
  have hm := pickStrict_from_qualifying w dk .medium (by intro h; cases h) hqm
  obtain ⟨ce, hceMem, hcePick⟩ := he
  obtain ⟨cm, hcmMem, hcmPick⟩ := hm
  obtain ⟨ie, hieInfo, hieCount, hiePos, hieMin⟩ :=
    emScan_qual w (minSubsForMode .easy) _ [] [] (by intro y hy; cases hy) ce hceMem
  obtain ⟨im, himInfo, himCount, himPos, himMin⟩ :=
    emScan_qual w (minSubsForMode .medium) _ [] [] (by intro y hy; cases hy) cm hcmMem
  refine ⟨⟨ie, by rw [hcePick]; exact hieInfo, ?_, ?_⟩,
    ⟨im, by rw [hcmPick]; exact himInfo, ?_, ?_⟩, by decide⟩
  · rw [← hieCount]; exact hieMin
  · rw [← hieCount]; exact hiePos
  · rw [← himCount]; exact himMin
  · rw [← himCount]; exact himPos

/-- C5 witness: the hypotheses of `c5_tier_thresholds` hold at a concrete snapshot
where both buckets are non-empty, and the theorem applies there. -/
theorem c5_tier_thresholds_witness :
    ((emBuckets c5World "2024-01-13" GameMode.easy).1 ≠ [] ∧
      (emBuckets c5World "2024-01-13" GameMode.medium).1 ≠ []) ∧
    ((∃ info, c5World.subInfo (pickSubredditForModeStrict c5World "2024-01-13"
        GameMode.easy) = some info ∧
        (1000000 : Int) ≤ getSubscriberCount info ∧ 0 < getSubscriberCount info) ∧
      (∃ info, c5World.subInfo (pickSubredditForModeStrict c5World "2024-01-13"
        GameMode.medium) = some info ∧
        (10000 : Int) ≤ getSubscriberCount info ∧ 0 < getSubscriberCount info) ∧
      minSubsForMode GameMode.medium ≤ minSubsForMode GameMode.easy) := by
  refine ⟨⟨?_, ?_⟩, ?_⟩
  · decide
  · decide
  · exact c5_tier_thresholds c5World "2024-01-13" (by decide) (by decide)
